import Mathlib

/-!
# ShakeMapWidget: directory import and ground-motion export

A shallow embedding of `src/UIWidgets/ShakeMapWidget.cpp`.  The widget is a record of
the members the functions read and write; every call into Qt, the file system, the
GIS runtime or a class whose source is not part of `src/` is a field of an environment
record, so that the control flow of `loadShakeMapData`, `loadDataFromDirectory` and
`copyFiles` is the only thing that is fixed here.  The load path is generic in the type
`D` of the values a station carries; in `copyFiles` a `double` is modelled by the rational
number it holds.
-/

set_option autoImplicit false

namespace ShakeMapWidget

/-! ## Data model -/

/-- Modelled from the spec: the class of the entries of a station list (declared outside
`src/`), a ground-motion point carrying intensity measure values: `getLatitude()`,
`getLongitude()` and the attribute values looked up by `getAttributeValue(tag)` (kept as
text, the way the grid file holds them). -/
structure Station (D : Type) where
  latitude : D
  longitude : D
  attributes : List (String × String)

/-- The call `station.getAttributeValue(tag)`: the value stored under `tag`, if any. -/
def Station.getAttributeValue {D : Type} (s : Station D) (tag : String) : Option String :=
  s.attributes.lookup tag

/-- A map layer: its name, the file it was read from, and the label of the renderer of
each of its feature tables (`none` for a table whose renderer is not a `SimpleRenderer`). -/
structure Layer where
  name : String
  source : String
  rendererLabels : List (Option String)
  deriving DecidableEq

/-- The root `GroupLayer` of an event. -/
structure GroupLayer where
  name : String
  layers : List Layer
  deriving DecidableEq

/-- Modelled from the spec: the `ShakeMap` record (declared in the header, outside `src/`),
with the members `loadDataFromDirectory` and `copyFiles` use: the event name, the root
group layer, the grid, PGA contour and rupture layers, and the station list. -/
structure ShakeMap (D : Type) where
  eventName : String
  eventLayer : GroupLayer
  gridLayer : Option Layer
  pgaContourLayer : Option Layer
  faultLayer : Option Layer
  stationList : List (Station D)

/-- Modelled from the spec: an item of the layer tree view (its class is outside `src/`),
as made by `addItemToTree(name, id, parent)`. -/
structure TreeItem where
  name : String
  id : Nat
  parent : Option Nat
  deriving DecidableEq

/-- Modelled from the spec: an entry of the list widget, with `getItemID()` and `getName()`. -/
structure ListItem where
  itemID : Nat
  name : String
  deriving DecidableEq

/-- Modelled from the spec: the class `CustomListWidget` (its source is not in `src/`),
the "List of Imported ShakeMaps" shown on the right of the widget: the entries in the
order they were added, and the identifier of the current entry. -/
structure CustomListWidget where
  items : List ListItem
  currentItem : Option Nat
  deriving DecidableEq

/-- Modelled from the spec: `CustomListWidget::getNumberOfItems()`, the number of entries. -/
def CustomListWidget.getNumberOfItems (l : CustomListWidget) : Nat :=
  l.items.length

/-- Modelled from the spec: `CustomListWidget::getCurrentItem()`, the current entry; `none`
stands for a null pointer. -/
def CustomListWidget.getCurrentItem (l : CustomListWidget) : Option ListItem :=
  match l.currentItem with
  | none => none
  | some i => l.items.find? (fun it => it.itemID == i)

/-- The two panes of `shakeMapStackedWidget`. -/
inductive Pane where
  | directoryInputWidget
  | progressBarWidget
  deriving DecidableEq

/-- The Qt signals the widget emits. -/
inductive Signal where
  | loadingComplete (value : Bool)
  | outputDirectoryPathChanged (destDir : String) (pathToEventFile : String)
  deriving DecidableEq

/-- The members of `ShakeMapWidget` (and of the visualization widget it drives) that the
embedded functions read or write.  `shakeMapContainer` is the map from event name to
`ShakeMap`, kept as an association list with at most one entry per key (the order of the
entries is the order of insertion; `contains`, `value` and `insert` do not depend on it).
`uniqueIDs` counts the identifiers handed out by `createUniqueID()`, `mapLayers` records
the calls `addLayerToMap(layer, item)`, and `errorMessages`, `statusMessages`, `emitted`
record the messages shown and the signals emitted, in order. -/
structure Widget (D : Type) where
  pathToShakeMapDirectory : String
  shakeMapDirectoryLineEdit : String
  shakeMapContainer : List (String × ShakeMap D)
  eventsVec : List String
  listWidget : CustomListWidget
  layersTree : List TreeItem
  uniqueIDs : Nat
  mapLayers : List (Layer × Nat)
  currentPane : Pane
  progressMaximum : Nat
  progressValue : Nat
  progressLabel : String
  progressLabelVisible : Bool
  directoryInputVisible : Bool
  progressBarVisible : Bool
  errorMessages : List String
  statusMessages : List String
  emitted : List Signal

/-- Everything outside the widget that the load path consults: Qt's path and directory
queries, the XML adaptor, the JSON layer factory of the visualization widget, and the
answer of `CustomListWidget::addItem`. -/
structure Env (D : Type) where
  /-- The value of `QDir::currentPath()`. -/
  currentPath : String
  /-- The value of `QCoreApplication::applicationDirPath()`. -/
  applicationDirPath : String
  /-- The value of `QDir::separator()`. -/
  separator : String
  /-- The test `QFileInfo(p).exists()`. -/
  fileInfoExists : String → Bool
  /-- The test `QFileInfo(p).isDir()`. -/
  fileInfoIsDir : String → Bool
  /-- The test `QDir(p).exists()`. -/
  dirExists : String → Bool
  /-- The value of `QFileInfo(p).absoluteFilePath()`. -/
  absoluteFilePath : String → String
  /-- The paths a `QDirIterator(p, Dirs | NoDotAndDotDot, Subdirectories)` yields. -/
  subdirectories : String → List String
  /-- The value of `QDir(p).entryList(nameFilters, QDir::Files)`. -/
  entryList : String → List String → List String
  /-- The value of `QDir(p).dirName()`. -/
  dirName : String → String
  /-- The call `XMLAdaptor::parseXMLFile`: the layer and the station list of the adaptor,
  or the error message when the returned layer is null. -/
  parseXMLFile : String → Except String (Layer × List (Station D))
  /-- The call `createAndAddJsonLayer(path, name, eventItem)`, `none` for a null layer. -/
  createAndAddJsonLayer : String → String → Option Layer
  /-- Whether `listWidget->addItem(name)` returns an item (rather than a null pointer). -/
  addItemAccepted : CustomListWidget → String → Bool

/-! ## The event container -/

/-- The test `shakeMapContainer.contains(key)`. -/
def containerContains {D : Type} (c : List (String × ShakeMap D)) (key : String) : Bool :=
  c.any (fun e => e.1 == key)

/-- The lookup `shakeMapContainer.value(key, nullptr)`. -/
def containerValue {D : Type} (c : List (String × ShakeMap D)) (key : String) :
    Option (ShakeMap D) :=
  c.lookup key

/-- The update `shakeMapContainer.insert(key, value)`: replaces the value of a key that is
present, adds the entry otherwise. -/
def containerInsert {D : Type} (c : List (String × ShakeMap D)) (key : String)
    (value : ShakeMap D) : List (String × ShakeMap D) :=
  if containerContains c key then
    c.map (fun e => if e.1 == key then (key, value) else e)
  else
    c ++ [(key, value)]

/-! ## The layer tree and the list widget -/

/-- Modelled from the spec: `LayerTreeView::getTreeItem(name, nullptr)`, a root item of that
name, `none` when there is none. -/
def getTreeItem (tree : List TreeItem) (name : String) : Option TreeItem :=
  tree.find? (fun it => it.name == name && it.parent.isNone)

/-- Modelled from the spec: `CustomListWidget::addItem(name)` when it returns an item: a
new entry at the end of the list, with an identifier no entry has yet. -/
def CustomListWidget.addItem (l : CustomListWidget) (name : String) :
    CustomListWidget × ListItem :=
  let item : ListItem := { itemID := (l.items.map (fun it => it.itemID)).foldl max 0 + 1,
                           name := name }
  ({ l with items := l.items ++ [item] }, item)

/-- Modelled from the spec: `LayerTreeView::addItemToTree(name, createUniqueID(), parent)`,
a new item under `parent` whose identifier is the next unused one; the item is returned. -/
def addItemToTree {D : Type} (w : Widget D) (name : String) (parent : Option Nat) :
    Nat × Widget D :=
  let item : TreeItem := { name := name, id := w.uniqueIDs, parent := parent }
  (w.uniqueIDs, { w with uniqueIDs := w.uniqueIDs + 1, layersTree := w.layersTree ++ [item] })

/-- The call `errorMessage(msg)`. -/
def errorMessage {D : Type} (w : Widget D) (msg : String) : Widget D :=
  { w with errorMessages := w.errorMessages ++ [msg] }

/-- The call `statusMessage(msg)`. -/
def statusMessage {D : Type} (w : Widget D) (msg : String) : Widget D :=
  { w with statusMessages := w.statusMessages ++ [msg] }

/-! ## `loadDataFromDirectory` -/

/-- The name filters passed to `entryList`. -/
def acceptableFileExtensions : List String := ["*.kmz", "*.xml", "*.shp", "*.json"]

/-- The state the `foreach` loop of `loadDataFromDirectory` carries: the widget, the
`ShakeMap` under construction (`inputShakeMap`) and the local `count`. -/
structure LoopState (D : Type) where
  widget : Widget D
  inputShakeMap : ShakeMap D
  count : Nat

/-- How one pass through a loop body ends: the loop goes on (`next`, also after a
`continue`), or the enclosing function returns from inside the loop (`exit`). -/
inductive Step (σ : Type) where
  | next (s : σ)
  | exit (s : σ)

/-- The state a step ends in. -/
def Step.state {σ : Type} : Step σ → σ
  | .next s => s
  | .exit s => s

/-- The end of the loop body, reached when a layer was made: `++count`, the label is
cleared and the progress bar is set to `count`. -/
def advance {D : Type} (st : LoopState D) : LoopState D :=
  { st with
    count := st.count + 1
    widget := { st.widget with progressLabel := "", progressValue := st.count + 1 } }

/-- The relabelling of the PGA contour tables: `"PGA (%g) " + label` on every simple renderer. -/
def relabelContours (layer : Layer) : Layer :=
  { layer with rendererLabels := layer.rendererLabels.map (Option.map (fun l => "PGA (%g) " ++ l)) }

/-- The relabelling of the rupture tables: `"Rupture"` on every simple renderer. -/
def relabelRupture (layer : Layer) : Layer :=
  { layer with rendererLabels := layer.rendererLabels.map (Option.map (fun _ => "Rupture")) }

/-- The body of the `foreach(QString filename, inputFiles)` loop. -/
def processFile {D : Type} (env : Env D) (dir : String) (eventItem : Nat)
    (st : LoopState D) (filename : String) : Step (LoopState D) :=
  let inFilePath := dir ++ env.separator ++ filename
  if filename = "grid.xml" then
    let w1 := statusMessage { st.widget with progressLabel := "Loading Grid Layer" }
                "Loading Grid Layer"
    let w2 := { w1 with progressLabelVisible := true }
    match env.parseXMLFile inFilePath with
    | .error errMess => .exit { st with widget := errorMessage w2 errMess }
    | .ok (layer, stations) =>
      let xmlLayer := { layer with name := "Grid" }
      let w3 := { w2 with mapLayers := w2.mapLayers ++ [(xmlLayer, eventItem)] }
      let sm := st.inputShakeMap
      .next (advance
        { st with
          widget := w3
          inputShakeMap :=
            { sm with
              gridLayer := some xmlLayer
              eventLayer := { sm.eventLayer with layers := sm.eventLayer.layers ++ [xmlLayer] }
              stationList := stations } })
  else if filename = "cont_pga.json" then
    let w1 := { st.widget with progressLabel := "Loading PGA Contour Layer" }
    match env.createAndAddJsonLayer inFilePath "PGA Contours" with
    | none =>
      .next { st with widget := errorMessage w1 "Failed to create the PGA contour layer" }
    | some created =>
      let layer := relabelContours created
      let sm := st.inputShakeMap
      .next (advance
        { st with
          widget := w1
          inputShakeMap :=
            { sm with
              pgaContourLayer := some layer
              eventLayer := { sm.eventLayer with layers := sm.eventLayer.layers ++ [layer] } } })
  else if filename = "rupture.json" then
    let w1 := { st.widget with progressLabel := "Loading Rupture Layer" }
    match env.createAndAddJsonLayer inFilePath "Rupture" with
    | none =>
      .next { st with widget := errorMessage w1 "Failed to create the rupture layer" }
    | some created =>
      let layer := relabelRupture created
      let sm := st.inputShakeMap
      .next (advance
        { st with
          widget := w1
          inputShakeMap :=
            { sm with
              faultLayer := some layer
              eventLayer := { sm.eventLayer with layers := sm.eventLayer.layers ++ [layer] } } })
  else
    .next st

/-- The `foreach` loop over `inputFiles`. -/
def processFiles {D : Type} (env : Env D) (dir : String) (eventItem : Nat) :
    LoopState D → List String → Step (LoopState D)
  | st, [] => .next st
  | st, filename :: rest =>
    match processFile env dir eventItem st filename with
    | .next st1 => processFiles env dir eventItem st1 rest
    | .exit st1 => .exit st1

/-- The part of `loadDataFromDirectory` between the test for an already loaded event and
the loop: the status message, the entry of `eventsVec`, the items of the layer tree (the
root "Shake Map", created when absent, and the event under it), the new `ShakeMap` and the
reset progress bar.  Returns `eventItem` and the state the loop starts in. -/
def beginLoad {D : Type} (w : Widget D) (eventName : String) (numFiles : Nat) :
    Nat × LoopState D :=
  let w1 := statusMessage w "Loading ShakeMap"
  let w2 := { w1 with eventsVec := w1.eventsVec ++ [eventName] }
  let rootAndTree : Nat × Widget D :=
    match getTreeItem w2.layersTree "Shake Map" with
    | some root => (root.id, w2)
    | none => addItemToTree w2 "Shake Map" none
  let eventAndTree := addItemToTree rootAndTree.2 eventName (some rootAndTree.1)
  let inputShakeMap : ShakeMap D :=
    { eventName := eventName
      eventLayer := { name := eventName, layers := [] }
      gridLayer := none, pgaContourLayer := none, faultLayer := none
      stationList := [] }
  let w5 := { eventAndTree.2 with
              currentPane := Pane.progressBarWidget
              progressBarVisible := true
              progressMaximum := numFiles
              progressValue := 0 }
  (eventAndTree.1, { widget := w5, inputShakeMap := inputShakeMap, count := 0 })

/-- The part of `loadDataFromDirectory` after the loop: the label is hidden, the
`ShakeMap` is inserted into the container and added to the list widget; when the list
widget returns an item it becomes the current one and the input pane is shown again. -/
def finishLoad {D : Type} (env : Env D) (eventName : String) (st : LoopState D) : Widget D :=
  let w6 := { st.widget with progressLabelVisible := false }
  let w7 := { w6 with
              shakeMapContainer :=
                containerInsert w6.shakeMapContainer eventName st.inputShakeMap }
  if env.addItemAccepted w7.listWidget eventName then
    let added := w7.listWidget.addItem eventName
    { w7 with
      listWidget := { added.1 with currentItem := some added.2.itemID }
      currentPane := Pane.directoryInputWidget
      directoryInputVisible := true }
  else w7

/-- The function `ShakeMapWidget::loadDataFromDirectory(dir)`. -/
def loadDataFromDirectory {D : Type} (env : Env D) (w : Widget D) (dir : String) : Widget D :=
  if !env.dirExists dir then w
  else if !env.fileInfoExists dir || !env.fileInfoIsDir dir then
    errorMessage w ("A directory does not exist at the path: " ++ dir)
  else
    let inputFiles := env.entryList dir acceptableFileExtensions
    if inputFiles.isEmpty then
      errorMessage w ("The directory " ++ dir ++ " is empty.")
    else
      let eventName := env.dirName dir
      if containerContains w.shakeMapContainer eventName then w
      else
        let start := beginLoad w eventName inputFiles.length
        match processFiles env dir start.1 start.2 inputFiles with
        | .exit st => st.widget
        | .next st => finishLoad env eventName st

/-! ## `loadShakeMapData` -/

/-- What a call of `loadShakeMapData` leaves: the returned integer, the widget, and the
directories `loadDataFromDirectory` was called on, in call order. -/
structure LoadResult (D : Type) where
  ret : Int
  widget : Widget D
  loadedDirectories : List String

/-- The `while(iter.hasNext())` loop: `loadDataFromDirectory` on each path in turn. -/
def loadDirectories {D : Type} (env : Env D) : Widget D → List String → Widget D
  | w, [] => w
  | w, dir :: rest => loadDirectories env (loadDataFromDirectory env w dir) rest

/-- The function `ShakeMapWidget::loadShakeMapData()`. -/
def loadShakeMapData {D : Type} (env : Env D) (w : Widget D) : LoadResult D :=
  if w.pathToShakeMapDirectory = "" ∨ w.pathToShakeMapDirectory = env.currentPath then
    { ret := -1, widget := { w with pathToShakeMapDirectory := "NULL" }, loadedDirectories := [] }
  else
    let resolved : Option (Widget D) :=
      if !env.fileInfoExists w.pathToShakeMapDirectory then
        let relPathToDir :=
          env.applicationDirPath ++ env.separator ++ w.pathToShakeMapDirectory
        if !env.fileInfoExists relPathToDir then none
        else some ({ w with pathToShakeMapDirectory := relPathToDir
                            shakeMapDirectoryLineEdit := relPathToDir } : Widget D)
      else some w
    match resolved with
    | none =>
      { ret := -1
        widget := errorMessage w ("The directory " ++ w.pathToShakeMapDirectory ++
          " does not exist check your directory and try again.")
        loadedDirectories := [] }
    | some w1 =>
      let inputDir := env.absoluteFilePath w1.pathToShakeMapDirectory
      let dirs := env.subdirectories inputDir
      let w2 := loadDirectories env w1 dirs
      { ret := 0
        widget := { w2 with emitted := w2.emitted ++ [Signal.loadingComplete true] }
        loadedDirectories := dirs }

/-- The function `ShakeMapWidget::getNumShakeMapsLoaded()`. -/
def getNumShakeMapsLoaded {D : Type} (w : Widget D) : Nat :=
  w.listWidget.getNumberOfItems

/-! ## `copyFiles` -/

/-- Everything outside the widget that `copyFiles` consults: the conversions between text
and `double` values, Qt's separator and the CSV writer.  A `double` is modelled by the
rational number it holds, so that `PGAval /= 100.0` is the division by 100; the rounding
of the quotient to a `double` is part of `number`. -/
structure CopyEnv where
  /-- The value of `QDir::separator()`. -/
  separator : String
  /-- The conversion `QString::number(x)` of a `double`. -/
  number : ℚ → String
  /-- The conversion `QVariant::toDouble(&Ok)` of an attribute value, `none` when `Ok` is false. -/
  toDouble : String → Option ℚ
  /-- The call `csvTool.saveCSVFile(data, path, err)`: the returned code and `err`. -/
  saveCSVFile : List (List String) → String → Int × String

/-- One call of `saveCSVFile`: the path, the table and the code it returned. -/
structure SaveCall where
  path : String
  data : List (List String)
  result : Int
  deriving DecidableEq

/-- What a call of `copyFiles` leaves: the returned flag, the widget and the calls of
`saveCSVFile` in call order. -/
structure CopyResult (D : Type) where
  ret : Bool
  widget : Widget D
  saves : List SaveCall

/-- The local `IMtag`. -/
def IMtag : String := "PGA"

/-- The local `headerRow`. -/
def headerRow : List String := ["GP_file", "Latitude", "Longitude"]

/-- The local `stationHeader`. -/
def stationHeader : List String := ["PGA"]

/-- The local `stationFile` of pass `i`: `"Site_" + QString::number(i) + ".csv"`. -/
def stationFile (i : Nat) : String := "Site_" ++ toString i ++ ".csv"

/-- The local `pathToEventFile`. -/
def pathToEventFile (cenv : CopyEnv) (destDir : String) : String :=
  destDir ++ cenv.separator ++ "EventGrid.csv"

/-- The local `pathToStationFile` of pass `i`. -/
def pathToStationFile (cenv : CopyEnv) (destDir : String) (i : Nat) : String :=
  destDir ++ cenv.separator ++ stationFile i

/-- The local `stationRow` of pass `i`: `{stationFile, lon, lat}`. -/
def stationRow (cenv : CopyEnv) (i : Nat) (station : Station ℚ) : List String :=
  let lat := cenv.number station.latitude
  let lon := cenv.number station.longitude
  [stationFile i, lon, lat]

/-- The state the station loop of `copyFiles` carries. -/
structure CopyState (D : Type) where
  widget : Widget D
  gridData : List (List String)
  saves : List SaveCall

/-- The body of the loop `for(int i = 0; i<stationList.size(); ++i)`. -/
def copyStation (cenv : CopyEnv) (destDir : String) (i : Nat)
    (station : Station ℚ) (st : CopyState ℚ) : Step (CopyState ℚ) :=
  let st1 := { st with gridData := st.gridData ++ [stationRow cenv i station] }
  let im : Option (List String) :=
    if IMtag = "PGA" then
      match (station.getAttributeValue IMtag).bind cenv.toDouble with
      | none => none
      | some pgaVal => some [cenv.number (pgaVal / 100)]
    else some []
  match im with
  | none =>
    .exit { st1 with
            widget := errorMessage st1.widget
              ("Error getting the desired IM " ++ IMtag ++ " from ShakeMap grid data") }
  | some imStrList =>
    let stationData := [stationHeader, imStrList]
    let path := pathToStationFile cenv destDir i
    let res2 := cenv.saveCSVFile stationData path
    let st2 := { st1 with saves := st1.saves ++ [{ path := path, data := stationData, result := res2.1 }] }
    if res2.1 ≠ 0 then .exit { st2 with widget := errorMessage st2.widget res2.2 }
    else .next st2

/-- The station loop, from index `i` on. -/
def stationLoop (cenv : CopyEnv) (destDir : String) :
    Nat → List (Station ℚ) → CopyState ℚ → Step (CopyState ℚ)
  | _, [], st => .next st
  | i, station :: rest, st =>
    match copyStation cenv destDir i station st with
    | .next st1 => stationLoop cenv destDir (i + 1) rest st1
    | .exit st1 => .exit st1

/-- The state the station loop of `copyFiles` starts in: the status message is shown,
`gridData` holds the header row and nothing has been saved. -/
def copyStart (w : Widget ℚ) : CopyState ℚ :=
  { widget := statusMessage w
      "Creating ground motion station files from ShakeMap, this may take some time."
    gridData := [headerRow]
    saves := [] }

/-- The part of `copyFiles` after the station loop: false when the loop returned from
inside; otherwise `gridData` is saved as the event file, and the signal
`outputDirectoryPathChanged` is emitted and true returned when that save returns 0. -/
def finishCopy (cenv : CopyEnv) (destDir : String) :
    Step (CopyState ℚ) → CopyResult ℚ
  | .exit st => { ret := false, widget := st.widget, saves := st.saves }
  | .next st =>
    let res2 := cenv.saveCSVFile st.gridData (pathToEventFile cenv destDir)
    let saves := st.saves ++
      [{ path := pathToEventFile cenv destDir, data := st.gridData, result := res2.1 }]
    if res2.1 ≠ 0 then
      { ret := false, widget := errorMessage st.widget res2.2, saves := saves }
    else
      { ret := true
        widget := { st.widget with
                    emitted := st.widget.emitted ++
                      [Signal.outputDirectoryPathChanged destDir (pathToEventFile cenv destDir)] }
        saves := saves }

/-- The function `ShakeMapWidget::copyFiles(destDir)`; `none` stands for the call on a
null `currentItem`, which has no defined result. -/
def copyFiles (cenv : CopyEnv) (w : Widget ℚ) (destDir : String) :
    Option (CopyResult ℚ) :=
  match w.listWidget.getCurrentItem with
  | none => none
  | some currentItem =>
    let currItemName := currentItem.name
    match containerValue w.shakeMapContainer currItemName with
    | none =>
      some { ret := false
             widget := errorMessage w ("Could not find the ShakeMap " ++ currItemName)
             saves := [] }
    | some selectedShakeMap =>
      let stationList := selectedShakeMap.stationList
      if stationList.isEmpty then
        some { ret := false
               widget := errorMessage w ("Error, the station list is empty for " ++ currItemName)
               saves := [] }
      else
        some (finishCopy cenv destDir (stationLoop cenv destDir 0 stationList (copyStart w)))

/-! ## Reference notions used to state the properties -/

/-- Whether the layer of `filename` gets made when the loop reaches it: the grid parses,
or the JSON layer of a contour or rupture file is created; no layer for any other name. -/
def layerCreated {D : Type} (env : Env D) (dir : String) (filename : String) : Bool :=
  if filename = "grid.xml" then
    match env.parseXMLFile (dir ++ env.separator ++ filename) with
    | .ok _ => true
    | .error _ => false
  else if filename = "cont_pga.json" then
    (env.createAndAddJsonLayer (dir ++ env.separator ++ filename) "PGA Contours").isSome
  else if filename = "rupture.json" then
    (env.createAndAddJsonLayer (dir ++ env.separator ++ filename) "Rupture").isSome
  else false

/-- Whether `filename` is a grid file that fails to parse. -/
def gridFailed {D : Type} (env : Env D) (dir : String) (filename : String) : Bool :=
  if filename = "grid.xml" then
    match env.parseXMLFile (dir ++ env.separator ++ filename) with
    | .ok _ => false
    | .error _ => true
  else false

/-- The files the loop goes through completely: those before the first grid file that
fails to parse (all of them when there is none). -/
def filesProcessed {D : Type} (env : Env D) (dir : String) (files : List String) : List String :=
  files.takeWhile (fun f => !gridFailed env dir f)

/-- The number of layers the loop makes on `files`: the processed files whose layer is
created. -/
def layersMade {D : Type} (env : Env D) (dir : String) (files : List String) : Nat :=
  ((filesProcessed env dir files).filter (layerCreated env dir)).length

/-- Whether `loadDataFromDirectory` gets past its early returns on `dir`: the directory
exists, lists at least one file with an accepted extension, and its name is not yet a key
of the container. -/
def startsLoading {D : Type} (env : Env D) (w : Widget D) (dir : String) : Bool :=
  env.dirExists dir && env.fileInfoExists dir && env.fileInfoIsDir dir &&
    !(env.entryList dir acceptableFileExtensions).isEmpty &&
    !containerContains w.shakeMapContainer (env.dirName dir)

/-- The PGA of a station as `copyFiles` reads it: the attribute under `IMtag`, converted
by `toDouble`; `none` when the conversion fails. -/
def stationIM (cenv : CopyEnv) (station : Station ℚ) : Option ℚ :=
  (station.getAttributeValue IMtag).bind cenv.toDouble

/-- The table saved for a station whose PGA is `v`: the header and `v / 100.0`. -/
def stationData (cenv : CopyEnv) (v : ℚ) : List (List String) :=
  [stationHeader, [cenv.number (v / 100)]]

/-- The call of `saveCSVFile` for station `i` with PGA `v`. -/
def stationCall (cenv : CopyEnv) (destDir : String) (i : Nat) (v : ℚ) : SaveCall :=
  { path := pathToStationFile cenv destDir i
    data := stationData cenv v
    result := (cenv.saveCSVFile (stationData cenv v) (pathToStationFile cenv destDir i)).1 }

/-- Whether the pass for station `i` goes through: its PGA converts and the save of its
file returns 0. -/
def stationPasses (cenv : CopyEnv) (destDir : String) (i : Nat)
    (station : Station ℚ) : Bool :=
  match stationIM cenv station with
  | none => false
  | some v => (stationCall cenv destDir i v).result == 0

/-- Whether the passes for the stations of the list, numbered from `i`, all go through. -/
def stationsPass (cenv : CopyEnv) (destDir : String) :
    Nat → List (Station ℚ) → Bool
  | _, [] => true
  | i, station :: rest =>
    stationPasses cenv destDir i station && stationsPass cenv destDir (i + 1) rest

/-- The rows `copyFiles` appends to `gridData` for the stations of the list, numbered
from `i`. -/
def stationRows (cenv : CopyEnv) : Nat → List (Station ℚ) → List (List String)
  | _, [] => []
  | i, station :: rest => stationRow cenv i station :: stationRows cenv (i + 1) rest

/-! ## Concrete states and environments -/

/-- The widget as the constructor leaves it. -/
def initialWidget (D : Type) : Widget D :=
  { pathToShakeMapDirectory := "NULL", shakeMapDirectoryLineEdit := "", shakeMapContainer := [],
    eventsVec := [], listWidget := { items := [], currentItem := none }, layersTree := [],
    uniqueIDs := 0, mapLayers := [], currentPane := Pane.directoryInputWidget,
    progressMaximum := 100, progressValue := 0, progressLabel := " ",
    progressLabelVisible := true, directoryInputVisible := true, progressBarVisible := true,
    errorMessages := [], statusMessages := [], emitted := [] }

/-- The layer a factory returns for `path` under `name`, with one simple renderer. -/
def sampleLayer (path name : String) : Layer :=
  { name := name, source := path, rendererLabels := [some "0.2", none] }

/-- The directories of the sample file system. -/
def sampleDirs : List String :=
  ["/maps", "/maps/ev1", "/maps/bad", "/maps/extra", "/other", "/other/ev1", "/other/ev2"]

/-- A file system with two folders.  `/maps` has three sub-directories: `ev1` (contour
file, grid with one station, an unrelated JSON file, rupture file), `bad` (a grid that
does not parse) and `extra` (an unrelated JSON file only).  `/other` has two, `ev1` and
`ev2`, each holding a grid with one station.  Every JSON layer can be created and the list
widget accepts every entry.  A `double` is written as the text of its value. -/
def sampleEnv : Env String :=
  { currentPath := "/home/user", applicationDirPath := "/opt/R2D", separator := "/"
    fileInfoExists := fun p => sampleDirs.contains p
    fileInfoIsDir := fun p => sampleDirs.contains p
    dirExists := fun p => sampleDirs.contains p
    absoluteFilePath := fun p => p
    subdirectories := fun p =>
      if p = "/maps" then ["/maps/bad", "/maps/ev1", "/maps/extra"]
      else if p = "/other" then ["/other/ev1", "/other/ev2"] else []
    entryList := fun p _ =>
      if p = "/maps/ev1" then ["cont_pga.json", "grid.xml", "info.json", "rupture.json"]
      else if p = "/maps/bad" then ["grid.xml", "rupture.json"]
      else if p = "/maps/extra" then ["info.json"]
      else if p = "/other/ev1" ∨ p = "/other/ev2" then ["grid.xml"] else []
    dirName := fun p =>
      if p = "/maps/ev1" ∨ p = "/other/ev1" then "ev1"
      else if p = "/other/ev2" then "ev2"
      else if p = "/maps/bad" then "bad"
      else if p = "/maps/extra" then "extra"
      else if p = "/maps" then "maps" else "other"
    parseXMLFile := fun p =>
      if p = "/maps/ev1/grid.xml" then
        .ok (sampleLayer p "",
          [{ latitude := "34.05", longitude := "-118.25", attributes := [("PGA", "12")] }])
      else if p = "/other/ev1/grid.xml" ∨ p = "/other/ev2/grid.xml" then
        .ok (sampleLayer p "",
          [{ latitude := "37.77", longitude := "-122.42", attributes := [("PGA", "30")] }])
      else .error "Cannot read the grid file"
    createAndAddJsonLayer := fun p n => some (sampleLayer p n)
    addItemAccepted := fun _ _ => true }

/-- The file system of `sampleEnv` with station data in numbers: the grid of `/maps/ev1`
holds one station of latitude 34.05, longitude -118.25 and PGA 12 (percent g). -/
def sampleGridEnv : Env ℚ :=
  { currentPath := sampleEnv.currentPath
    applicationDirPath := sampleEnv.applicationDirPath
    separator := sampleEnv.separator
    fileInfoExists := sampleEnv.fileInfoExists
    fileInfoIsDir := sampleEnv.fileInfoIsDir
    dirExists := sampleEnv.dirExists
    absoluteFilePath := sampleEnv.absoluteFilePath
    subdirectories := sampleEnv.subdirectories
    entryList := sampleEnv.entryList
    dirName := sampleEnv.dirName
    parseXMLFile := fun p =>
      if p = "/maps/ev1/grid.xml" then
        .ok (sampleLayer p "",
          [{ latitude := 34.05, longitude := -118.25, attributes := [("PGA", "12")] }])
      else .error "Cannot read the grid file"
    createAndAddJsonLayer := sampleEnv.createAndAddJsonLayer
    addItemAccepted := sampleEnv.addItemAccepted }

/-- The widget after `/maps/ev1` of `sampleGridEnv` was loaded into the initial widget: one
ShakeMap `ev1` with one station, selected in the list. -/
def sampleLoaded : Widget ℚ :=
  loadDataFromDirectory sampleGridEnv (initialWidget ℚ) "/maps/ev1"

/-- The text of a number with two decimal places (the value is cut after the second). -/
def sampleNumber (q : ℚ) : String :=
  let hundredths := q.num.natAbs * 100 / q.den
  (if q.num < 0 then "-" else "") ++ toString (hundredths / 100) ++ "." ++
    (if hundredths % 100 < 10 then "0" else "") ++ toString (hundredths % 100)

/-- The number a non-empty run of decimal digits stands for; `none` for any other text. -/
def sampleToDouble (t : String) : Option ℚ :=
  if t.data.all Char.isDigit && !t.data.isEmpty then
    some ((t.data.foldl (fun n c => 10 * n + (c.toNat - 48)) 0 : Nat) : ℚ)
  else none

/-- A copy environment in which numbers are written with two decimal places, an attribute
converts when it is a non-empty run of digits, and every save returns 0. -/
def sampleCopyEnv : CopyEnv :=
  { separator := "/"
    number := sampleNumber
    toDouble := sampleToDouble
    saveCSVFile := fun _ _ => (0, "") }

/-- A ShakeMap `ev` without layers. -/
def sampleShakeMap (stations : List (Station ℚ)) : ShakeMap ℚ :=
  { eventName := "ev"
    eventLayer := { name := "ev", layers := [] }
    gridLayer := none, pgaContourLayer := none, faultLayer := none
    stationList := stations }

/-- A widget holding the one ShakeMap `ev` with the given stations, selected in the list. -/
def sampleSelected (stations : List (Station ℚ)) : Widget ℚ :=
  { initialWidget ℚ with
    shakeMapContainer := [("ev", sampleShakeMap stations)]
    listWidget := { items := [{ itemID := 1, name := "ev" }], currentItem := some 1 } }

/-- Two stations with the PGA values 12 and 25 (percent g). -/
def sampleStations : List (Station ℚ) :=
  [{ latitude := 34.05, longitude := -118.25, attributes := [("PGA", "12")] },
   { latitude := 34.15, longitude := -118.35, attributes := [("PGA", "25")] }]

/-- Two stations of which the first carries no PGA attribute and the second the PGA 25. -/
def sampleStationsNoPGA : List (Station ℚ) :=
  [{ latitude := 34.05, longitude := -118.25, attributes := [("PGV", "3")] },
   { latitude := 34.15, longitude := -118.35, attributes := [("PGA", "25")] }]

/-- A variant of `sampleEnv` in which the folder `/maps` has two sub-directories, `bad` (a
grid that does not parse) and `empty` (no file with an accepted extension). -/
def sampleFailingEnv : Env String :=
  { sampleEnv with
    fileInfoExists := fun p => p = "/maps" ∨ p = "/maps/bad" ∨ p = "/maps/empty"
    fileInfoIsDir := fun p => p = "/maps" ∨ p = "/maps/bad" ∨ p = "/maps/empty"
    dirExists := fun p => p = "/maps" ∨ p = "/maps/bad" ∨ p = "/maps/empty"
    subdirectories := fun p => if p = "/maps" then ["/maps/bad", "/maps/empty"] else []
    entryList := fun p _ => if p = "/maps/bad" then ["grid.xml", "rupture.json"] else []
    dirName := fun p =>
      if p = "/maps/bad" then "bad" else if p = "/maps/empty" then "empty" else "maps" }

end ShakeMapWidget

/-! # Properties -/

namespace ShakeMapWidget

/-! ## Shared lemmas on the file loop -/

/-- One pass of the loop body: what it does to the count, the layers of the event, the
progress bar and the members the loop never touches. -/
theorem processFile_spec {D : Type} (env : Env D) (dir : String) (eventItem : Nat)
    (st : LoopState D) (filename : String) :
    match processFile env dir eventItem st filename with
    | .next st1 =>
      gridFailed env dir filename = false ∧
      st1.count = st.count + (if layerCreated env dir filename then 1 else 0) ∧
      st1.inputShakeMap.eventLayer.layers.length =
        st.inputShakeMap.eventLayer.layers.length +
          (if layerCreated env dir filename then 1 else 0) ∧
      (st.widget.progressValue = st.count → st1.widget.progressValue = st1.count)
    | .exit st1 =>
      gridFailed env dir filename = true ∧ st1.count = st.count ∧
      st1.inputShakeMap = st.inputShakeMap ∧
      st1.widget.progressValue = st.widget.progressValue := by
  unfold processFile layerCreated gridFailed
  by_cases h1 : filename = "grid.xml"
  · simp only [h1, if_true]
    cases env.parseXMLFile (dir ++ env.separator ++ "grid.xml") with
    | error e => simp [errorMessage, statusMessage]
    | ok r => simp [advance, statusMessage]
  · by_cases h2 : filename = "cont_pga.json"
    · simp only [h1, h2, if_true, if_false]
      cases env.createAndAddJsonLayer (dir ++ env.separator ++ "cont_pga.json") "PGA Contours" with
      | none => simp [errorMessage]
      | some l => simp [advance]
    · by_cases h3 : filename = "rupture.json"
      · simp only [h1, h2, h3, if_true, if_false]
        cases env.createAndAddJsonLayer (dir ++ env.separator ++ "rupture.json") "Rupture" with
        | none => simp [errorMessage]
        | some l => simp [advance]
      · simp [h1, h2, h3]

/-- The whole loop: the count and the number of layers of the event grow by the number of
layers made, and the progress bar follows the count. -/
theorem processFiles_spec {D : Type} (env : Env D) (dir : String) (eventItem : Nat) :
    ∀ (files : List String) (st : LoopState D),
      (processFiles env dir eventItem st files).state.count =
        st.count + layersMade env dir files ∧
      (processFiles env dir eventItem st files).state.inputShakeMap.eventLayer.layers.length =
        st.inputShakeMap.eventLayer.layers.length + layersMade env dir files ∧
      (st.widget.progressValue = st.count →
        (processFiles env dir eventItem st files).state.widget.progressValue =
          (processFiles env dir eventItem st files).state.count) := by
  intro files
  induction files with
  | nil => intro st; simp [processFiles, Step.state, layersMade, filesProcessed]
  | cons f fs ih =>
    intro st
    have hstep := processFile_spec env dir eventItem st f
    cases hpf : processFile env dir eventItem st f with
    | next st1 =>
      rw [hpf] at hstep
      obtain ⟨hg, hc, hl, hp⟩ := hstep
      obtain ⟨ihc, ihl, ihp⟩ := ih st1
      have hmade : layersMade env dir (f :: fs) =
          (if layerCreated env dir f then 1 else 0) + layersMade env dir fs := by
        simp only [layersMade, filesProcessed, List.takeWhile, hg, Bool.not_false]
        by_cases hlc : layerCreated env dir f = true
        · simp [List.filter, hlc, Nat.add_comm]
        · simp [List.filter, hlc]
      simp only [processFiles, hpf]
      refine ⟨?_, ?_, ?_⟩
      · rw [ihc, hc, hmade]; omega
      · rw [ihl, hl, hmade]; omega
      · intro h0; exact ihp (hp h0)
    | exit st1 =>
      rw [hpf] at hstep
      obtain ⟨hg, hc, hl, hp⟩ := hstep
      have hmade : layersMade env dir (f :: fs) = 0 := by
        simp [layersMade, filesProcessed, List.takeWhile, hg]
      simp only [processFiles, hpf, Step.state, hmade]
      refine ⟨by omega, by rw [hl]; rfl, ?_⟩
      intro h0; rw [hp, h0, hc]

/-- The members of the widget the loop body never writes. -/
theorem processFile_frame {D : Type} (env : Env D) (dir : String) (eventItem : Nat)
    (st : LoopState D) (filename : String) :
    (processFile env dir eventItem st filename).state.widget.shakeMapContainer =
        st.widget.shakeMapContainer ∧
    (processFile env dir eventItem st filename).state.widget.eventsVec = st.widget.eventsVec ∧
    (processFile env dir eventItem st filename).state.widget.listWidget = st.widget.listWidget ∧
    (processFile env dir eventItem st filename).state.widget.layersTree = st.widget.layersTree ∧
    (processFile env dir eventItem st filename).state.widget.progressMaximum =
        st.widget.progressMaximum ∧
    (processFile env dir eventItem st filename).state.widget.emitted = st.widget.emitted := by
  unfold processFile
  by_cases h1 : filename = "grid.xml"
  · simp only [h1, if_true]
    cases env.parseXMLFile (dir ++ env.separator ++ "grid.xml") with
    | error e => simp [errorMessage, statusMessage, Step.state]
    | ok r => simp [advance, statusMessage, Step.state]
  · by_cases h2 : filename = "cont_pga.json"
    · simp only [h1, h2, if_true, if_false]
      cases env.createAndAddJsonLayer (dir ++ env.separator ++ "cont_pga.json") "PGA Contours" with
      | none => simp [errorMessage, Step.state]
      | some l => simp [advance, Step.state]
    · by_cases h3 : filename = "rupture.json"
      · simp only [h1, h2, h3, if_true, if_false]
        cases env.createAndAddJsonLayer (dir ++ env.separator ++ "rupture.json") "Rupture" with
        | none => simp [errorMessage, Step.state]
        | some l => simp [advance, Step.state]
      · simp [h1, h2, h3, Step.state]

/-- The members of the widget the whole loop never writes. -/
theorem processFiles_frame {D : Type} (env : Env D) (dir : String) (eventItem : Nat) :
    ∀ (files : List String) (st : LoopState D),
      (processFiles env dir eventItem st files).state.widget.shakeMapContainer =
          st.widget.shakeMapContainer ∧
      (processFiles env dir eventItem st files).state.widget.eventsVec = st.widget.eventsVec ∧
      (processFiles env dir eventItem st files).state.widget.listWidget = st.widget.listWidget ∧
      (processFiles env dir eventItem st files).state.widget.layersTree = st.widget.layersTree ∧
      (processFiles env dir eventItem st files).state.widget.progressMaximum =
          st.widget.progressMaximum ∧
      (processFiles env dir eventItem st files).state.widget.emitted = st.widget.emitted := by
  intro files
  induction files with
  | nil => intro st; simp [processFiles, Step.state]
  | cons f fs ih =>
    intro st
    have hstep := processFile_frame env dir eventItem st f
    cases hpf : processFile env dir eventItem st f with
    | next st1 =>
      rw [hpf] at hstep
      simp only [Step.state] at hstep
      obtain ⟨h1, h2, h3, h4, h5, h6⟩ := hstep
      obtain ⟨i1, i2, i3, i4, i5, i6⟩ := ih st1
      simp only [processFiles, hpf]
      exact ⟨i1.trans h1, i2.trans h2, i3.trans h3, i4.trans h4, i5.trans h5, i6.trans h6⟩
    | exit st1 =>
      rw [hpf] at hstep
      simpa only [processFiles, hpf, Step.state] using hstep

/-- What `beginLoad` leaves: the container and the list widget as they were, one more
entry in `eventsVec`, an empty event and a progress bar reset to zero out of `numFiles`. -/
theorem beginLoad_spec {D : Type} (w : Widget D) (eventName : String) (numFiles : Nat) :
    (beginLoad w eventName numFiles).2.widget.shakeMapContainer = w.shakeMapContainer ∧
    (beginLoad w eventName numFiles).2.widget.eventsVec = w.eventsVec ++ [eventName] ∧
    (beginLoad w eventName numFiles).2.widget.listWidget = w.listWidget ∧
    (beginLoad w eventName numFiles).2.widget.emitted = w.emitted ∧
    (beginLoad w eventName numFiles).2.widget.progressMaximum = numFiles ∧
    (beginLoad w eventName numFiles).2.widget.progressValue = 0 ∧
    (beginLoad w eventName numFiles).2.count = 0 ∧
    (beginLoad w eventName numFiles).2.inputShakeMap.eventLayer.layers = [] ∧
    (beginLoad w eventName numFiles).2.inputShakeMap.stationList = [] := by
  unfold beginLoad
  dsimp only
  split <;> simp [addItemToTree, statusMessage]

/-- Past the early returns, `loadDataFromDirectory` is the loop followed by `finishLoad`,
or the widget the loop was left with when it returned from inside. -/
theorem loadDataFromDirectory_of_startsLoading {D : Type} (env : Env D) (w : Widget D)
    (dir : String) (h : startsLoading env w dir = true) :
    loadDataFromDirectory env w dir =
      match processFiles env dir
          (beginLoad w (env.dirName dir) (env.entryList dir acceptableFileExtensions).length).1
          (beginLoad w (env.dirName dir) (env.entryList dir acceptableFileExtensions).length).2
          (env.entryList dir acceptableFileExtensions) with
      | .exit st => st.widget
      | .next st => finishLoad env (env.dirName dir) st := by
  simp only [startsLoading, Bool.and_eq_true, Bool.not_eq_true', Bool.not_eq_eq_eq_not,
    Bool.not_true] at h
  obtain ⟨⟨⟨⟨h1, h2⟩, h3⟩, h4⟩, h5⟩ := h
  simp [loadDataFromDirectory, h1, h2, h3, h4, h5]

/-- The widget `finishLoad` returns keeps the maximum of the progress bar. -/
theorem finishLoad_progressMaximum {D : Type} (env : Env D) (eventName : String)
    (st : LoopState D) :
    (finishLoad env eventName st).progressMaximum = st.widget.progressMaximum := by
  unfold finishLoad
  dsimp only
  split <;> rfl

/-- The widget `finishLoad` returns shows the progress value the loop ended with. -/
theorem finishLoad_progressValue {D : Type} (env : Env D) (eventName : String)
    (st : LoopState D) :
    (finishLoad env eventName st).progressValue = st.widget.progressValue := by
  unfold finishLoad
  dsimp only
  split <;> rfl

/-- The container `finishLoad` leaves: the event inserted under its name. -/
theorem finishLoad_shakeMapContainer {D : Type} (env : Env D) (eventName : String)
    (st : LoopState D) :
    (finishLoad env eventName st).shakeMapContainer =
      containerInsert st.widget.shakeMapContainer eventName st.inputShakeMap := by
  unfold finishLoad
  dsimp only
  split <;> rfl

/-- The list widget `finishLoad` leaves when the list widget returns an item: one more
entry, named after the event. -/
theorem finishLoad_listWidget_items {D : Type} (env : Env D) (eventName : String)
    (st : LoopState D) (hadd : env.addItemAccepted st.widget.listWidget eventName = true) :
    (finishLoad env eventName st).listWidget.items =
      st.widget.listWidget.items ++
        [(st.widget.listWidget.addItem eventName).2] := by
  unfold finishLoad
  dsimp only
  rw [if_pos hadd]
  rfl

/-- Inserting under a key the container does not hold adds one entry at the end. -/
theorem containerInsert_of_not_contains {D : Type} (c : List (String × ShakeMap D))
    (key : String) (value : ShakeMap D) (h : containerContains c key = false) :
    containerInsert c key value = c ++ [(key, value)] := by
  simp [containerInsert, h]

/-- The test `contains` on a container with one more entry at the end. -/
theorem containerContains_append {D : Type} (c : List (String × ShakeMap D))
    (key k : String) (value : ShakeMap D) :
    containerContains (c ++ [(key, value)]) k = (containerContains c k || key == k) := by
  simp [containerContains]

/-- A loop over files none of which is a grid that fails to parse runs to its end. -/
theorem processFiles_next {D : Type} (env : Env D) (dir : String) (eventItem : Nat) :
    ∀ (files : List String) (st : LoopState D),
      (∀ f ∈ files, gridFailed env dir f = false) →
      ∃ st1, processFiles env dir eventItem st files = .next st1 := by
  intro files
  induction files with
  | nil => intro st _; exact ⟨st, rfl⟩
  | cons f fs ih =>
    intro st hall
    have hstep := processFile_spec env dir eventItem st f
    cases hpf : processFile env dir eventItem st f with
    | next st1 =>
      obtain ⟨st2, h2⟩ := ih st1 (fun g hg => hall g (List.mem_cons_of_mem _ hg))
      exact ⟨st2, by simp only [processFiles, hpf, h2]⟩
    | exit st1 =>
      rw [hpf] at hstep
      have := hall f (List.mem_cons_self _ _)
      rw [hstep.1] at this
      exact absurd this (by decide)

/-- In a directory whose grid parses, no listed file is a grid that fails to parse. -/
theorem gridFailed_false_of_parseable {D : Type} (env : Env D) (dir : String)
    (hparse : layerCreated env dir "grid.xml" = true) (f : String) :
    gridFailed env dir f = false := by
  unfold gridFailed
  by_cases h1 : f = "grid.xml"
  · subst h1
    simp only [layerCreated, if_true] at hparse
    simp only [if_true]
    cases hp : env.parseXMLFile (dir ++ env.separator ++ "grid.xml") with
    | error e => rw [hp] at hparse; simp at hparse
    | ok r => rfl
  · simp [h1]

/-- A load that gets past the early returns and meets no grid that fails to parse adds
one entry to the container, under the directory name, leaves `eventsVec` one entry
longer, and adds one entry to the list widget when the list widget returns an item. -/
theorem loadDataFromDirectory_registers {D : Type} (env : Env D) (w : Widget D) (dir : String)
    (h : startsLoading env w dir = true)
    (hgrid : ∀ f ∈ env.entryList dir acceptableFileExtensions, gridFailed env dir f = false) :
    (∃ sm, (loadDataFromDirectory env w dir).shakeMapContainer =
        w.shakeMapContainer ++ [(env.dirName dir, sm)]) ∧
    (loadDataFromDirectory env w dir).eventsVec = w.eventsVec ++ [env.dirName dir] ∧
    (env.addItemAccepted w.listWidget (env.dirName dir) = true →
      (loadDataFromDirectory env w dir).listWidget.items =
        w.listWidget.items ++ [(w.listWidget.addItem (env.dirName dir)).2]) := by
  obtain ⟨hcont, hev, hlist, -, -, -, -, -, -⟩ :=
    beginLoad_spec w (env.dirName dir) (env.entryList dir acceptableFileExtensions).length
  obtain ⟨f1, f2, f3, -, -, -⟩ := processFiles_frame env dir
    (beginLoad w (env.dirName dir) (env.entryList dir acceptableFileExtensions).length).1
    (env.entryList dir acceptableFileExtensions)
    (beginLoad w (env.dirName dir) (env.entryList dir acceptableFileExtensions).length).2
  obtain ⟨st1, hst1⟩ := processFiles_next env dir
    (beginLoad w (env.dirName dir) (env.entryList dir acceptableFileExtensions).length).1
    (env.entryList dir acceptableFileExtensions)
    (beginLoad w (env.dirName dir) (env.entryList dir acceptableFileExtensions).length).2 hgrid
  rw [hst1] at f1 f2 f3
  simp only [Step.state] at f1 f2 f3
  have hnew : containerContains w.shakeMapContainer (env.dirName dir) = false := by
    simp only [startsLoading, Bool.and_eq_true, Bool.not_eq_true', Bool.not_eq_eq_eq_not,
      Bool.not_true] at h
    exact h.2
  rw [loadDataFromDirectory_of_startsLoading env w dir h, hst1]
  dsimp only
  refine ⟨⟨st1.inputShakeMap, ?_⟩, ?_, ?_⟩
  · rw [finishLoad_shakeMapContainer, f1, hcont, containerInsert_of_not_contains _ _ _ hnew]
  · unfold finishLoad
    dsimp only
    split
    · exact f2.trans hev
    · exact f2.trans hev
  · intro hadd
    rw [finishLoad_listWidget_items env _ st1 (by rw [f3, hlist]; exact hadd), f3, hlist]

/-- A load of a directory whose name is already a key of the container changes nothing in
the container, `eventsVec`, the list widget and the layer tree. -/
theorem loadDataFromDirectory_already_loaded {D : Type} (env : Env D) (w : Widget D)
    (dir : String) (h : containerContains w.shakeMapContainer (env.dirName dir) = true) :
    (loadDataFromDirectory env w dir).shakeMapContainer = w.shakeMapContainer ∧
    (loadDataFromDirectory env w dir).eventsVec = w.eventsVec ∧
    (loadDataFromDirectory env w dir).listWidget = w.listWidget ∧
    (loadDataFromDirectory env w dir).layersTree = w.layersTree := by
  unfold loadDataFromDirectory
  split
  · exact ⟨rfl, rfl, rfl, rfl⟩
  · split
    · exact ⟨rfl, rfl, rfl, rfl⟩
    · dsimp only
      split
      · exact ⟨rfl, rfl, rfl, rfl⟩
      · exact ⟨rfl, rfl, rfl, rfl⟩

/-- The widget `finishLoad` returns has emitted nothing more. -/
theorem finishLoad_emitted {D : Type} (env : Env D) (eventName : String)
    (st : LoopState D) :
    (finishLoad env eventName st).emitted = st.widget.emitted := by
  unfold finishLoad
  dsimp only
  split <;> rfl

/-- A call of `loadDataFromDirectory` emits no signal, whichever way it ends. -/
theorem loadDataFromDirectory_emitted {D : Type} (env : Env D) (w : Widget D) (dir : String) :
    (loadDataFromDirectory env w dir).emitted = w.emitted := by
  have hb := (beginLoad_spec w (env.dirName dir)
    (env.entryList dir acceptableFileExtensions).length).2.2.2.1
  have hf := (processFiles_frame env dir
    (beginLoad w (env.dirName dir) (env.entryList dir acceptableFileExtensions).length).1
    (env.entryList dir acceptableFileExtensions)
    (beginLoad w (env.dirName dir) (env.entryList dir acceptableFileExtensions).length).2).2.2.2.2.2
  unfold loadDataFromDirectory
  split
  · rfl
  · split
    · rfl
    · dsimp only
      split
      · rfl
      · split
        · rfl
        · cases hpf : processFiles env dir
            (beginLoad w (env.dirName dir) (env.entryList dir acceptableFileExtensions).length).1
            (beginLoad w (env.dirName dir) (env.entryList dir acceptableFileExtensions).length).2
            (env.entryList dir acceptableFileExtensions) with
          | next st =>
            rw [hpf] at hf
            simp only [Step.state] at hf
            dsimp only
            rw [finishLoad_emitted, hf, hb]
          | exit st =>
            rw [hpf] at hf
            simp only [Step.state] at hf
            dsimp only
            rw [hf, hb]

/-- The loop over the directories emits no signal. -/
theorem loadDirectories_emitted {D : Type} (env : Env D) :
    ∀ (dirs : List String) (w : Widget D), (loadDirectories env w dirs).emitted = w.emitted := by
  intro dirs
  induction dirs with
  | nil => intro w; rfl
  | cons d rest ih =>
    intro w
    simp only [loadDirectories]
    rw [ih, loadDataFromDirectory_emitted]

/-! ## Shared lemmas on the station loop -/

/-- One pass of the station loop: it goes on exactly when the pass goes through, adds the
row of the station to `gridData`, and saves the file of the station whenever its PGA
converts. -/
theorem copyStation_spec (cenv : CopyEnv) (destDir : String) (i : Nat)
    (station : Station ℚ) (st : CopyState ℚ) :
    match copyStation cenv destDir i station st with
    | .next st1 =>
      stationPasses cenv destDir i station = true ∧
      st1.gridData = st.gridData ++ [stationRow cenv i station] ∧
      st1.widget = st.widget ∧
      ∃ v, stationIM cenv station = some v ∧ st1.saves = st.saves ++ [stationCall cenv destDir i v]
    | .exit st1 =>
      stationPasses cenv destDir i station = false ∧
      st1.widget.emitted = st.widget.emitted ∧
      ((stationIM cenv station = none ∧ st1.saves = st.saves) ∨
        ∃ v, stationIM cenv station = some v ∧
          st1.saves = st.saves ++ [stationCall cenv destDir i v]) := by
  unfold copyStation stationPasses
  have htag : IMtag = "PGA" := rfl
  simp only [htag, if_true]
  cases him : stationIM cenv station with
  | none =>
    have him2 := him
    simp only [stationIM, htag] at him2
    simp [him2, errorMessage]
  | some v =>
    have him2 := him
    simp only [stationIM, htag] at him2
    simp only [him2]
    by_cases hres : (cenv.saveCSVFile (stationData cenv v) (pathToStationFile cenv destDir i)).1 = 0
    · simp only [stationData] at hres
      simp [stationCall, stationData, hres]
    · simp only [stationData] at hres
      simp [stationCall, stationData, hres, errorMessage]

/-- All passes go through exactly when each station, by index, passes. -/
theorem stationsPass_iff (cenv : CopyEnv) (destDir : String) :
    ∀ (stations : List (Station ℚ)) (i : Nat),
      stationsPass cenv destDir i stations = true ↔
        ∀ (k : Nat) (hk : k < stations.length),
          stationPasses cenv destDir (i + k) stations[k] = true := by
  intro stations
  induction stations with
  | nil => intro i; simp [stationsPass]
  | cons s rest ih =>
    intro i
    simp only [stationsPass, Bool.and_eq_true, ih]
    constructor
    · rintro ⟨h0, hrest⟩ k hk
      cases k with
      | zero => simpa using h0
      | succ k =>
        have := hrest k (by simpa using hk)
        simpa [Nat.add_assoc, Nat.add_comm 1 k] using this
    · intro hall
      refine ⟨by simpa using hall 0 (by simp), ?_⟩
      intro k hk
      have := hall (k + 1) (by simpa using hk)
      simpa [Nat.add_assoc, Nat.add_comm 1 k] using this

/-- The station loop runs to its end exactly when all passes go through; it then has
added one row per station, in order; every save it makes is the save of a station file. -/
theorem stationLoop_spec (cenv : CopyEnv) (destDir : String) :
    ∀ (stations : List (Station ℚ)) (i : Nat) (st : CopyState ℚ),
      match stationLoop cenv destDir i stations st with
      | .next st1 =>
        stationsPass cenv destDir i stations = true ∧
        st1.gridData = st.gridData ++ stationRows cenv i stations ∧
        st1.widget = st.widget ∧
        (∀ c ∈ st1.saves, c ∈ st.saves ∨ ∃ k, c.path = pathToStationFile cenv destDir k)
      | .exit st1 =>
        stationsPass cenv destDir i stations = false ∧
        st1.widget.emitted = st.widget.emitted ∧
        (∀ c ∈ st1.saves, c ∈ st.saves ∨ ∃ k, c.path = pathToStationFile cenv destDir k) := by
  intro stations
  induction stations with
  | nil =>
    intro i st
    simp only [stationLoop, stationsPass, stationRows, List.append_nil, true_and]
    exact fun c hc => Or.inl hc
  | cons s rest ih =>
    intro i st
    have hstep := copyStation_spec cenv destDir i s st
    cases hcs : copyStation cenv destDir i s st with
    | next st1 =>
      rw [hcs] at hstep
      obtain ⟨hpass, hgrid, hw, v, -, hsaves⟩ := hstep
      have hrec := ih (i + 1) st1
      simp only [stationLoop, hcs]
      have hmem : ∀ c ∈ st1.saves, c ∈ st.saves ∨ ∃ k, c.path = pathToStationFile cenv destDir k := by
        intro c hc
        rw [hsaves, List.mem_append, List.mem_singleton] at hc
        rcases hc with hc | hc
        · exact Or.inl hc
        · exact Or.inr ⟨i, by rw [hc]; rfl⟩
      cases hsl : stationLoop cenv destDir (i + 1) rest st1 with
      | next st2 =>
        rw [hsl] at hrec
        obtain ⟨r1, r2, r3, r4⟩ := hrec
        refine ⟨by simp [stationsPass, hpass, r1], ?_, r3.trans hw, ?_⟩
        · rw [r2, hgrid]; simp [stationRows]
        · intro c hc
          rcases r4 c hc with h | h
          · exact hmem c h
          · exact Or.inr h
      | exit st2 =>
        rw [hsl] at hrec
        obtain ⟨r1, r2, r4⟩ := hrec
        refine ⟨by simp [stationsPass, hpass, r1], ?_, ?_⟩
        · rw [r2, hw]
        · intro c hc
          rcases r4 c hc with h | h
          · exact hmem c h
          · exact Or.inr h
    | exit st1 =>
      rw [hcs] at hstep
      obtain ⟨hpass, hem, hsaves⟩ := hstep
      simp only [stationLoop, hcs]
      refine ⟨by simp [stationsPass, hpass], hem, ?_⟩
      intro c hc
      rcases hsaves with ⟨-, h⟩ | ⟨v, -, h⟩
      · rw [h] at hc; exact Or.inl hc
      · rw [h, List.mem_append, List.mem_singleton] at hc
        rcases hc with hc | hc
        · exact Or.inl hc
        · exact Or.inr ⟨i, by rw [hc]; rfl⟩

/-- No station file has the path of the event grid file. -/
theorem pathToStationFile_ne_pathToEventFile (cenv : CopyEnv) (destDir : String)
    (k : Nat) : pathToStationFile cenv destDir k ≠ pathToEventFile cenv destDir := by
  intro h
  have h1 := congrArg String.data h
  simp only [pathToStationFile, pathToEventFile, stationFile, String.data_append,
    List.append_assoc] at h1
  have h2 := List.append_cancel_left (List.append_cancel_left h1)
  simp at h2

/-- A pass goes through exactly when the PGA converts and the save returns 0. -/
theorem stationPasses_iff (cenv : CopyEnv) (destDir : String) (i : Nat)
    (station : Station ℚ) :
    stationPasses cenv destDir i station = true ↔
      ∃ v, stationIM cenv station = some v ∧
        (cenv.saveCSVFile (stationData cenv v) (pathToStationFile cenv destDir i)).1 = 0 := by
  unfold stationPasses
  cases stationIM cenv station with
  | none => simp
  | some v => simp [stationCall]

/-- The station loop only adds to the record of saves. -/
theorem stationLoop_saves_mono (cenv : CopyEnv) (destDir : String) :
    ∀ (stations : List (Station ℚ)) (i : Nat) (st : CopyState ℚ),
      ∀ c ∈ st.saves, c ∈ (stationLoop cenv destDir i stations st).state.saves := by
  intro stations
  induction stations with
  | nil => intro i st c hc; simpa [stationLoop, Step.state] using hc
  | cons s rest ih =>
    intro i st c hc
    have hstep := copyStation_spec cenv destDir i s st
    cases hcs : copyStation cenv destDir i s st with
    | next st1 =>
      rw [hcs] at hstep
      obtain ⟨-, -, -, v, -, hsaves⟩ := hstep
      simp only [stationLoop, hcs]
      exact ih (i + 1) st1 c (by rw [hsaves]; exact List.mem_append_left _ hc)
    | exit st1 =>
      rw [hcs] at hstep
      obtain ⟨-, -, hsaves⟩ := hstep
      simp only [stationLoop, hcs, Step.state]
      rcases hsaves with ⟨-, h⟩ | ⟨v, -, h⟩
      · rw [h]; exact hc
      · rw [h]; exact List.mem_append_left _ hc

/-- The station loop saves the file of station `k` when the passes before `k` go through
and the PGA of station `k` converts. -/
theorem stationLoop_saves_mem (cenv : CopyEnv) (destDir : String) :
    ∀ (stations : List (Station ℚ)) (i : Nat) (st : CopyState ℚ) (k : Nat)
      (hk : k < stations.length) (v : ℚ),
      (∀ (j : Nat) (hj : j < stations.length), j < k →
        stationPasses cenv destDir (i + j) stations[j] = true) →
      stationIM cenv stations[k] = some v →
      stationCall cenv destDir (i + k) v ∈ (stationLoop cenv destDir i stations st).state.saves := by
  intro stations
  induction stations with
  | nil => intro i st k hk; exact absurd hk (Nat.not_lt_zero _)
  | cons s rest ih =>
    intro i st k hk v hprev hv
    have hstep := copyStation_spec cenv destDir i s st
    cases k with
    | zero =>
      have hv0 : stationIM cenv s = some v := by simpa using hv
      cases hcs : copyStation cenv destDir i s st with
      | next st1 =>
        rw [hcs] at hstep
        obtain ⟨-, -, -, v1, hv1, hsaves⟩ := hstep
        rw [hv0] at hv1
        cases hv1
        simp only [stationLoop, hcs]
        exact stationLoop_saves_mono cenv destDir rest (i + 1) st1 _ (by rw [hsaves]; simp)
      | exit st1 =>
        rw [hcs] at hstep
        obtain ⟨-, -, hsaves⟩ := hstep
        simp only [stationLoop, hcs, Step.state]
        rcases hsaves with ⟨hnone, -⟩ | ⟨v1, hv1, h⟩
        · rw [hv0] at hnone; cases hnone
        · rw [hv0] at hv1
          cases hv1
          rw [h]; simp
    | succ k =>
      have h0 : stationPasses cenv destDir i s = true := by
        simpa using hprev 0 (by simp) (Nat.succ_pos k)
      cases hcs : copyStation cenv destDir i s st with
      | next st1 =>
        simp only [stationLoop, hcs]
        have := ih (i + 1) st1 k (by simpa using hk) v
          (fun j hj hjk => by
            have := hprev (j + 1) (by simpa using hj) (by omega)
            simpa [Nat.add_assoc, Nat.add_comm 1 j] using this)
          (by simpa using hv)
        simpa [Nat.add_assoc, Nat.add_comm 1 k] using this
      | exit st1 =>
        rw [hcs] at hstep
        rw [hstep.1] at h0
        cases h0

/-- What `copyFiles` returns once the station loop is entered. -/
theorem finishCopy_stationLoop_spec (cenv : CopyEnv) (w : Widget ℚ)
    (destDir : String) (stations : List (Station ℚ)) :
    ((finishCopy cenv destDir (stationLoop cenv destDir 0 stations (copyStart w))).ret = true ↔
      stationsPass cenv destDir 0 stations = true ∧
      (cenv.saveCSVFile (headerRow :: stationRows cenv 0 stations)
        (pathToEventFile cenv destDir)).1 = 0) ∧
    ((finishCopy cenv destDir (stationLoop cenv destDir 0 stations (copyStart w))).ret = false →
      (finishCopy cenv destDir (stationLoop cenv destDir 0 stations (copyStart w))).widget.emitted
        = w.emitted ∧
      ∀ c ∈ (finishCopy cenv destDir (stationLoop cenv destDir 0 stations (copyStart w))).saves,
        c.path = pathToEventFile cenv destDir → c.result ≠ 0) ∧
    ((finishCopy cenv destDir (stationLoop cenv destDir 0 stations (copyStart w))).ret = true →
      (finishCopy cenv destDir (stationLoop cenv destDir 0 stations (copyStart w))).widget.emitted
        = w.emitted ++
          [Signal.outputDirectoryPathChanged destDir (pathToEventFile cenv destDir)] ∧
      ∃ c ∈ (finishCopy cenv destDir (stationLoop cenv destDir 0 stations (copyStart w))).saves,
        c.path = pathToEventFile cenv destDir ∧
        c.data = headerRow :: stationRows cenv 0 stations ∧ c.result = 0) := by
  have hspec := stationLoop_spec cenv destDir stations 0 (copyStart w)
  have hstation : ∀ (saves : List SaveCall),
      (∀ c ∈ saves, c ∈ (copyStart w).saves ∨ ∃ k, c.path = pathToStationFile cenv destDir k) →
      ∀ c ∈ saves, c.path ≠ pathToEventFile cenv destDir := by
    intro saves hs c hc
    rcases hs c hc with h | ⟨k, h⟩
    · simp [copyStart] at h
    · rw [h]; exact pathToStationFile_ne_pathToEventFile cenv destDir k
  cases hsl : stationLoop cenv destDir 0 stations (copyStart w) with
  | exit st =>
    rw [hsl] at hspec
    obtain ⟨hpass, hem, hsaves⟩ := hspec
    simp only [finishCopy, hpass]
    refine ⟨by simp, fun _ => ⟨hem, ?_⟩, by simp⟩
    intro c hc hpath
    exact absurd hpath (hstation st.saves hsaves c hc)
  | next st =>
    rw [hsl] at hspec
    obtain ⟨hpass, hgrid, hw, hsaves⟩ := hspec
    have hgrid2 : st.gridData = headerRow :: stationRows cenv 0 stations := by
      rw [hgrid]; rfl
    have hem : st.widget.emitted = w.emitted := by rw [hw]; rfl
    simp only [finishCopy, hpass, hgrid2, true_and]
    by_cases hres : (cenv.saveCSVFile (headerRow :: stationRows cenv 0 stations)
        (pathToEventFile cenv destDir)).1 = 0
    · simp [hres, hem]
      exact ⟨_, Or.inr rfl, rfl, rfl, rfl⟩
    · simp only [ne_eq, hres, not_false_eq_true, if_true]
      refine ⟨by simp, fun _ => ⟨by simpa [errorMessage] using hem, ?_⟩, by simp⟩
      intro c hc hpath
      rw [List.mem_append, List.mem_singleton] at hc
      rcases hc with hc | hc
      · exact absurd hpath (hstation st.saves hsaves c hc)
      · rw [hc]; exact hres

/-- The rows of the event grid, by index: the file of the station, then the text of its
longitude, then the text of its latitude. -/
theorem stationRows_getElem? (cenv : CopyEnv) :
    ∀ (stations : List (Station ℚ)) (i k : Nat) (hk : k < stations.length),
      (stationRows cenv i stations)[k]? =
        some [stationFile (i + k), cenv.number stations[k].longitude,
          cenv.number stations[k].latitude] := by
  intro stations
  induction stations with
  | nil => intro i k hk; exact absurd hk (Nat.not_lt_zero _)
  | cons s rest ih =>
    intro i k hk
    cases k with
    | zero => simp [stationRows, stationRow]
    | succ k =>
      have := ih (i + 1) k (by simpa using hk)
      simpa [stationRows, Nat.add_assoc, Nat.add_comm 1 k] using this

/-! ## `loadShakeMapData`: the early returns -/

/-- C1: when `pathToShakeMapDirectory` is empty or is the current working directory,
`loadShakeMapData` returns -1, sets `pathToShakeMapDirectory` to "NULL", calls
`loadDataFromDirectory` on no directory, emits nothing (so no `loadingComplete`) and leaves
`shakeMapContainer` and `eventsVec` as they were. -/
theorem loadShakeMapData_cancelled {D : Type} (env : Env D) (w : Widget D)
    (h : w.pathToShakeMapDirectory = "" ∨ w.pathToShakeMapDirectory = env.currentPath) :
    (loadShakeMapData env w).ret = -1 ∧
    (loadShakeMapData env w).widget.pathToShakeMapDirectory = "NULL" ∧
    (loadShakeMapData env w).loadedDirectories = [] ∧
    (loadShakeMapData env w).widget.emitted = w.emitted ∧
    (loadShakeMapData env w).widget.shakeMapContainer = w.shakeMapContainer ∧
    (loadShakeMapData env w).widget.eventsVec = w.eventsVec := by
  simp [loadShakeMapData, h]

/-- Witness of C1: the widget whose path is the working directory of `sampleEnv`. -/
theorem loadShakeMapData_cancelled_witness :
    (({ initialWidget String with pathToShakeMapDirectory := "/home/user" } : Widget String).pathToShakeMapDirectory = "" ∨
      ({ initialWidget String with pathToShakeMapDirectory := "/home/user" } : Widget String).pathToShakeMapDirectory
        = sampleEnv.currentPath) ∧
    (loadShakeMapData sampleEnv
      { initialWidget String with pathToShakeMapDirectory := "/home/user" }).ret = -1 :=
  ⟨Or.inr rfl,
   (loadShakeMapData_cancelled sampleEnv
      { initialWidget String with pathToShakeMapDirectory := "/home/user" } (Or.inr rfl)).1⟩

/-- C2: for a non-empty path `p` other than the working directory that exists neither as
given nor under the application directory, `loadShakeMapData` reports the message
"The directory p does not exist check your directory and try again.", returns -1, loads
no directory, emits nothing, and leaves `pathToShakeMapDirectory`, `shakeMapContainer` and
`eventsVec` as they were. -/
theorem loadShakeMapData_missing_directory {D : Type} (env : Env D) (w : Widget D)
    (hne : w.pathToShakeMapDirectory ≠ "")
    (hcwd : w.pathToShakeMapDirectory ≠ env.currentPath)
    (habs : env.fileInfoExists w.pathToShakeMapDirectory = false)
    (hrel : env.fileInfoExists
      (env.applicationDirPath ++ env.separator ++ w.pathToShakeMapDirectory) = false) :
    (loadShakeMapData env w).widget.errorMessages = w.errorMessages ++
      ["The directory " ++ w.pathToShakeMapDirectory ++
        " does not exist check your directory and try again."] ∧
    (loadShakeMapData env w).ret = -1 ∧
    (loadShakeMapData env w).loadedDirectories = [] ∧
    (loadShakeMapData env w).widget.emitted = w.emitted ∧
    (loadShakeMapData env w).widget.pathToShakeMapDirectory = w.pathToShakeMapDirectory ∧
    (loadShakeMapData env w).widget.shakeMapContainer = w.shakeMapContainer ∧
    (loadShakeMapData env w).widget.eventsVec = w.eventsVec := by
  simp [loadShakeMapData, hne, hcwd, habs, hrel, errorMessage]

/-- Witness of C2: the path `nowhere` in `sampleEnv`. -/
theorem loadShakeMapData_missing_directory_witness :
    (loadShakeMapData sampleEnv
      { initialWidget String with pathToShakeMapDirectory := "nowhere" }).widget.errorMessages =
      ["The directory nowhere does not exist check your directory and try again."] ∧
    (loadShakeMapData sampleEnv
      { initialWidget String with pathToShakeMapDirectory := "nowhere" }).ret = -1 :=
  have h := loadShakeMapData_missing_directory sampleEnv
    { initialWidget String with pathToShakeMapDirectory := "nowhere" }
    (by decide) (by decide) (by decide) (by decide)
  ⟨h.1, h.2.1⟩

/-! ## The file loop of `loadDataFromDirectory` -/

/-- C3: in `loadDataFromDirectory`, a file whose name is none of "grid.xml",
"cont_pga.json", "rupture.json" is skipped, leaving the `ShakeMap` under construction, the
count and the widget as they were; a file of one of these names gives the grid layer, the
PGA contour layer and the rupture layer respectively; and once the loop is reached, the progress value the
call leaves equals the number of processed files whose layer was created, each of which
bears one of the three names, and does not exceed the number of files listed (the maximum
of the progress bar). -/
theorem loadDataFromDirectory_progress {D : Type} (env : Env D) (w : Widget D) (dir : String)
    (h : startsLoading env w dir = true) :
    (∀ (st : LoopState D) (eventItem : Nat) (filename : String),
      filename ≠ "grid.xml" → filename ≠ "cont_pga.json" → filename ≠ "rupture.json" →
      processFile env dir eventItem st filename = .next st) ∧
    (∀ (st : LoopState D) (eventItem : Nat) (layer : Layer) (stations : List (Station D)),
      env.parseXMLFile (dir ++ env.separator ++ "grid.xml") = .ok (layer, stations) →
      (processFile env dir eventItem st "grid.xml").state.inputShakeMap.gridLayer =
        some { layer with name := "Grid" }) ∧
    (∀ (st : LoopState D) (eventItem : Nat) (layer : Layer),
      env.createAndAddJsonLayer (dir ++ env.separator ++ "cont_pga.json") "PGA Contours" =
        some layer →
      (processFile env dir eventItem st "cont_pga.json").state.inputShakeMap.pgaContourLayer =
        some (relabelContours layer)) ∧
    (∀ (st : LoopState D) (eventItem : Nat) (layer : Layer),
      env.createAndAddJsonLayer (dir ++ env.separator ++ "rupture.json") "Rupture" = some layer →
      (processFile env dir eventItem st "rupture.json").state.inputShakeMap.faultLayer =
        some (relabelRupture layer)) ∧
    (loadDataFromDirectory env w dir).progressValue =
      ((filesProcessed env dir (env.entryList dir acceptableFileExtensions)).filter
        (layerCreated env dir)).length ∧
    (∀ f ∈ (filesProcessed env dir (env.entryList dir acceptableFileExtensions)).filter
        (layerCreated env dir),
      f = "grid.xml" ∨ f = "cont_pga.json" ∨ f = "rupture.json") ∧
    (loadDataFromDirectory env w dir).progressValue ≤
      (env.entryList dir acceptableFileExtensions).length ∧
    (loadDataFromDirectory env w dir).progressMaximum =
      (env.entryList dir acceptableFileExtensions).length := by
  have hb := beginLoad_spec w (env.dirName dir) (env.entryList dir acceptableFileExtensions).length
  obtain ⟨-, -, -, -, hmax, hval, hcount, -, -⟩ := hb
  have hs := processFiles_spec env dir
    (beginLoad w (env.dirName dir) (env.entryList dir acceptableFileExtensions).length).1
    (env.entryList dir acceptableFileExtensions)
    (beginLoad w (env.dirName dir) (env.entryList dir acceptableFileExtensions).length).2
  have hf := processFiles_frame env dir
    (beginLoad w (env.dirName dir) (env.entryList dir acceptableFileExtensions).length).1
    (env.entryList dir acceptableFileExtensions)
    (beginLoad w (env.dirName dir) (env.entryList dir acceptableFileExtensions).length).2
  obtain ⟨hc, -, hp⟩ := hs
  obtain ⟨-, -, -, -, hpm, -⟩ := hf
  have hp2 := hp (by rw [hval, hcount])
  rw [hcount, Nat.zero_add] at hc
  have hprog : (loadDataFromDirectory env w dir).progressValue =
      layersMade env dir (env.entryList dir acceptableFileExtensions) ∧
      (loadDataFromDirectory env w dir).progressMaximum =
      (env.entryList dir acceptableFileExtensions).length := by
    rw [loadDataFromDirectory_of_startsLoading env w dir h]
    cases hpf : processFiles env dir
        (beginLoad w (env.dirName dir) (env.entryList dir acceptableFileExtensions).length).1
        (beginLoad w (env.dirName dir) (env.entryList dir acceptableFileExtensions).length).2
        (env.entryList dir acceptableFileExtensions) with
    | next st =>
      rw [hpf] at hc hp2 hpm
      simp only [Step.state] at hc hp2 hpm
      refine ⟨by rw [finishLoad_progressValue, hp2, hc], ?_⟩
      rw [finishLoad_progressMaximum, hpm, hmax]
    | exit st =>
      rw [hpf] at hc hp2 hpm
      simp only [Step.state] at hc hp2 hpm
      exact ⟨by rw [hp2, hc], by rw [hpm, hmax]⟩
  refine ⟨?_, ?_, ?_, ?_, hprog.1, ?_, ?_, hprog.2⟩
  · intro st eventItem filename h1 h2 h3
    simp [processFile, h1, h2, h3]
  · intro st eventItem layer stations hparse
    simp [processFile, hparse, advance, Step.state]
  · intro st eventItem layer hlayer
    simp [processFile, hlayer, advance, Step.state]
  · intro st eventItem layer hlayer
    simp [processFile, hlayer, advance, Step.state]
  · intro f hf
    have hlc : layerCreated env dir f = true := (List.mem_filter.mp hf).2
    unfold layerCreated at hlc
    by_cases h1 : f = "grid.xml"
    · exact Or.inl h1
    · by_cases h2 : f = "cont_pga.json"
      · exact Or.inr (Or.inl h2)
      · by_cases h3 : f = "rupture.json"
        · exact Or.inr (Or.inr h3)
        · simp [h1, h2, h3] at hlc
  · rw [hprog.1]
    unfold layersMade filesProcessed
    exact (List.length_filter_le _ _).trans (List.takeWhile_sublist _).length_le

/-- Witness of C3: the directory `/maps/ev1` of `sampleEnv`, loaded into the initial
widget; three of its four files give a layer. -/
theorem loadDataFromDirectory_progress_witness :
    startsLoading sampleEnv (initialWidget String) "/maps/ev1" = true ∧
    (loadDataFromDirectory sampleEnv (initialWidget String) "/maps/ev1").progressValue =
      ((filesProcessed sampleEnv "/maps/ev1"
          (sampleEnv.entryList "/maps/ev1" acceptableFileExtensions)).filter
        (layerCreated sampleEnv "/maps/ev1")).length ∧
    (loadDataFromDirectory sampleEnv (initialWidget String) "/maps/ev1").progressValue = 3 :=
  ⟨by decide,
   (loadDataFromDirectory_progress sampleEnv (initialWidget String) "/maps/ev1"
      (by decide)).2.2.2.2.1,
   by decide⟩

/-! ## Which directories become ShakeMaps -/

/-- C4, evaluated on a folder without a grid: `/maps/extra` of `sampleEnv` lists only
`info.json`, and `loadDataFromDirectory` still inserts an entry named `extra` into the
container and adds it to the list of imported ShakeMaps; the entry has no layer and no
station. -/
theorem loadDataFromDirectory_registers_without_grid :
    sampleEnv.entryList "/maps/extra" acceptableFileExtensions = ["info.json"] ∧
    ¬ ("grid.xml" ∈ sampleEnv.entryList "/maps/extra" acceptableFileExtensions) ∧
    containerContains
      (loadDataFromDirectory sampleEnv (initialWidget String) "/maps/extra").shakeMapContainer
      "extra" = true ∧
    (loadDataFromDirectory sampleEnv (initialWidget String) "/maps/extra").listWidget.items.map
      (fun it => it.name) = ["extra"] ∧
    getNumShakeMapsLoaded (loadDataFromDirectory sampleEnv (initialWidget String) "/maps/extra") = 1 ∧
    (loadDataFromDirectory sampleEnv (initialWidget String) "/maps/extra").shakeMapContainer.map
      (fun e => (e.2.eventLayer.layers.length, e.2.stationList.length)) = [(0, 0)] := by
  decide

/-- C5, evaluated on a folder that holds the files itself: `/other/ev1` of `sampleEnv`
exists, lists a `grid.xml` that parses and has no sub-directory; with
`pathToShakeMapDirectory` set to it, `loadShakeMapData` calls `loadDataFromDirectory` on
no directory, leaves the container empty, emits `loadingComplete(true)` and returns 0. -/
theorem loadShakeMapData_skips_folder_itself :
    sampleEnv.fileInfoExists "/other/ev1" = true ∧
    "grid.xml" ∈ sampleEnv.entryList "/other/ev1" acceptableFileExtensions ∧
    layerCreated sampleEnv "/other/ev1" "grid.xml" = true ∧
    sampleEnv.subdirectories (sampleEnv.absoluteFilePath "/other/ev1") = [] ∧
    (loadShakeMapData sampleEnv
      { initialWidget String with pathToShakeMapDirectory := "/other/ev1" }).loadedDirectories = [] ∧
    (loadShakeMapData sampleEnv
      { initialWidget String with pathToShakeMapDirectory := "/other/ev1" }).widget.shakeMapContainer.length
      = 0 ∧
    containerContains (loadShakeMapData sampleEnv
      { initialWidget String with pathToShakeMapDirectory := "/other/ev1" }).widget.shakeMapContainer
      "ev1" = false ∧
    (loadShakeMapData sampleEnv
      { initialWidget String with pathToShakeMapDirectory := "/other/ev1" }).widget.emitted =
      [Signal.loadingComplete true] ∧
    (loadShakeMapData sampleEnv
      { initialWidget String with pathToShakeMapDirectory := "/other/ev1" }).ret = 0 := by
  decide

/-- C6: for every directory whose directory name is already a key of `shakeMapContainer`,
`loadDataFromDirectory` leaves `shakeMapContainer`, `eventsVec`, the list of imported
ShakeMaps and the layer tree unchanged; consequently a second load of that directory
leaves these four as the first load left them. -/
theorem loadDataFromDirectory_loaded_noop {D : Type} (env : Env D) (w : Widget D)
    (dir : String) (h : containerContains w.shakeMapContainer (env.dirName dir) = true) :
    ((loadDataFromDirectory env w dir).shakeMapContainer = w.shakeMapContainer ∧
      (loadDataFromDirectory env w dir).eventsVec = w.eventsVec ∧
      (loadDataFromDirectory env w dir).listWidget = w.listWidget ∧
      (loadDataFromDirectory env w dir).layersTree = w.layersTree) ∧
    ((loadDataFromDirectory env (loadDataFromDirectory env w dir) dir).shakeMapContainer =
        (loadDataFromDirectory env w dir).shakeMapContainer ∧
      (loadDataFromDirectory env (loadDataFromDirectory env w dir) dir).eventsVec =
        (loadDataFromDirectory env w dir).eventsVec ∧
      (loadDataFromDirectory env (loadDataFromDirectory env w dir) dir).listWidget =
        (loadDataFromDirectory env w dir).listWidget ∧
      (loadDataFromDirectory env (loadDataFromDirectory env w dir) dir).layersTree =
        (loadDataFromDirectory env w dir).layersTree) := by
  have h1 := loadDataFromDirectory_already_loaded env w dir h
  have h2 : containerContains (loadDataFromDirectory env w dir).shakeMapContainer
      (env.dirName dir) = true := by
    rw [h1.1]; exact h
  exact ⟨h1, loadDataFromDirectory_already_loaded env (loadDataFromDirectory env w dir) dir h2⟩

/-- Witness of C6: the widget in which `/maps/ev1` of `sampleEnv` has been loaded once; the
name `ev1` is then a key of the container, and loading `/maps/ev1` again, or `/other/ev1`
of the same name, changes none of the four. -/
theorem loadDataFromDirectory_loaded_noop_witness :
    containerContains
      (loadDataFromDirectory sampleEnv (initialWidget String) "/maps/ev1").shakeMapContainer
      (sampleEnv.dirName "/maps/ev1") = true ∧
    (loadDataFromDirectory sampleEnv
        (loadDataFromDirectory sampleEnv (initialWidget String) "/maps/ev1")
        "/maps/ev1").eventsVec =
      (loadDataFromDirectory sampleEnv (initialWidget String) "/maps/ev1").eventsVec ∧
    (loadDataFromDirectory sampleEnv
        (loadDataFromDirectory sampleEnv (initialWidget String) "/maps/ev1")
        "/maps/ev1").listWidget =
      (loadDataFromDirectory sampleEnv (initialWidget String) "/maps/ev1").listWidget ∧
    (loadDataFromDirectory sampleEnv (initialWidget String) "/maps/ev1").eventsVec = ["ev1"] :=
  have h := loadDataFromDirectory_loaded_noop sampleEnv
    (loadDataFromDirectory sampleEnv (initialWidget String) "/maps/ev1") "/maps/ev1"
    (by decide)
  ⟨by decide, h.1.2.1, h.1.2.2.1, by decide⟩

/-- A load that stops at a grid that does not parse is not covered by the property above,
since it registers nothing: one load of `/maps/bad` of `sampleEnv` leaves one entry `bad`
in `eventsVec` and one event item in the layer tree while the container stays empty, and a
second load of the same directory adds a second entry and a second item. -/
theorem loadDataFromDirectory_twice_differs :
    (loadDataFromDirectory sampleEnv (initialWidget String) "/maps/bad").shakeMapContainer.length = 0 ∧
    (loadDataFromDirectory sampleEnv (initialWidget String) "/maps/bad").eventsVec = ["bad"] ∧
    (loadDataFromDirectory sampleEnv (initialWidget String) "/maps/bad").layersTree.map
      (fun it => it.name) = ["Shake Map", "bad"] ∧
    (loadDataFromDirectory sampleEnv
      (loadDataFromDirectory sampleEnv (initialWidget String) "/maps/bad") "/maps/bad").eventsVec =
      ["bad", "bad"] ∧
    (loadDataFromDirectory sampleEnv
      (loadDataFromDirectory sampleEnv (initialWidget String) "/maps/bad") "/maps/bad").layersTree.map
      (fun it => it.name) = ["Shake Map", "bad", "bad"] := by
  decide

/-- C7 as stated fails: `/maps/ev1` and `/other/ev1` of `sampleEnv` are distinct paths that
each hold a `grid.xml` that parses, and after `loadDataFromDirectory` on the first and then
on the second the container holds one ShakeMap and the list one entry. -/
theorem loadDataFromDirectory_same_name_once :
    "/maps/ev1" ≠ "/other/ev1" ∧
    "grid.xml" ∈ sampleEnv.entryList "/maps/ev1" acceptableFileExtensions ∧
    "grid.xml" ∈ sampleEnv.entryList "/other/ev1" acceptableFileExtensions ∧
    layerCreated sampleEnv "/maps/ev1" "grid.xml" = true ∧
    layerCreated sampleEnv "/other/ev1" "grid.xml" = true ∧
    (loadDataFromDirectory sampleEnv
      (loadDataFromDirectory sampleEnv (initialWidget String) "/maps/ev1")
      "/other/ev1").shakeMapContainer.length = 1 ∧
    getNumShakeMapsLoaded (loadDataFromDirectory sampleEnv
      (loadDataFromDirectory sampleEnv (initialWidget String) "/maps/ev1") "/other/ev1") = 1 := by
  decide

/-- C7 (amended): for two existing directories whose directory names differ and are not
yet keys of the container, each listing a `grid.xml` that parses, and a list widget that
returns an item for every entry, `loadDataFromDirectory` on the first and then on the
second leaves both names in the container, which has two more entries than before, and
`getNumShakeMapsLoaded` grows by one with each load. -/
theorem loadDataFromDirectory_two_names {D : Type} (env : Env D) (w : Widget D)
    (d1 d2 : String)
    (hd1 : env.dirExists d1 = true ∧ env.fileInfoExists d1 = true ∧ env.fileInfoIsDir d1 = true)
    (hd2 : env.dirExists d2 = true ∧ env.fileInfoExists d2 = true ∧ env.fileInfoIsDir d2 = true)
    (hm1 : "grid.xml" ∈ env.entryList d1 acceptableFileExtensions)
    (hm2 : "grid.xml" ∈ env.entryList d2 acceptableFileExtensions)
    (hp1 : layerCreated env d1 "grid.xml" = true)
    (hp2 : layerCreated env d2 "grid.xml" = true)
    (hne : env.dirName d1 ≠ env.dirName d2)
    (hn1 : containerContains w.shakeMapContainer (env.dirName d1) = false)
    (hn2 : containerContains w.shakeMapContainer (env.dirName d2) = false)
    (hacc : ∀ (l : CustomListWidget) (name : String), env.addItemAccepted l name = true) :
    containerContains
      (loadDataFromDirectory env (loadDataFromDirectory env w d1) d2).shakeMapContainer
      (env.dirName d1) = true ∧
    containerContains
      (loadDataFromDirectory env (loadDataFromDirectory env w d1) d2).shakeMapContainer
      (env.dirName d2) = true ∧
    (loadDataFromDirectory env (loadDataFromDirectory env w d1) d2).shakeMapContainer.length =
      w.shakeMapContainer.length + 2 ∧
    getNumShakeMapsLoaded (loadDataFromDirectory env w d1) = getNumShakeMapsLoaded w + 1 ∧
    getNumShakeMapsLoaded (loadDataFromDirectory env (loadDataFromDirectory env w d1) d2) =
      getNumShakeMapsLoaded (loadDataFromDirectory env w d1) + 1 := by
  have hfiles : ∀ d, "grid.xml" ∈ env.entryList d acceptableFileExtensions →
      (env.entryList d acceptableFileExtensions).isEmpty = false := by
    intro d hm
    cases hl : env.entryList d acceptableFileExtensions with
    | nil => rw [hl] at hm; exact absurd hm (List.not_mem_nil _)
    | cons a l => rfl
  have hs1 : startsLoading env w d1 = true := by
    simp [startsLoading, hd1.1, hd1.2.1, hd1.2.2, hfiles d1 hm1, hn1]
  obtain ⟨⟨sm1, hc1⟩, -, hl1⟩ := loadDataFromDirectory_registers env w d1 hs1
    (fun f _ => gridFailed_false_of_parseable env d1 hp1 f)
  have hn2b : containerContains (loadDataFromDirectory env w d1).shakeMapContainer
      (env.dirName d2) = false := by
    rw [hc1, containerContains_append, hn2]
    simpa using hne
  have hs2 : startsLoading env (loadDataFromDirectory env w d1) d2 = true := by
    simp [startsLoading, hd2.1, hd2.2.1, hd2.2.2, hfiles d2 hm2, hn2b]
  obtain ⟨⟨sm2, hc2⟩, -, hl2⟩ :=
    loadDataFromDirectory_registers env (loadDataFromDirectory env w d1) d2 hs2
      (fun f _ => gridFailed_false_of_parseable env d2 hp2 f)
  have hi1 := hl1 (hacc _ _)
  have hi2 := hl2 (hacc _ _)
  refine ⟨?_, ?_, ?_, ?_, ?_⟩
  · rw [hc2, hc1, containerContains_append, containerContains_append]
    simp
  · rw [hc2, containerContains_append]
    simp
  · rw [hc2, hc1]
    simp
  · simp [getNumShakeMapsLoaded, CustomListWidget.getNumberOfItems, hi1]
  · simp [getNumShakeMapsLoaded, CustomListWidget.getNumberOfItems, hi2]

/-- Witness of C7 (amended): `/other/ev1` and `/other/ev2` of `sampleEnv`, loaded into the
initial widget. -/
theorem loadDataFromDirectory_two_names_witness :
    sampleEnv.dirName "/other/ev1" ≠ sampleEnv.dirName "/other/ev2" ∧
    (loadDataFromDirectory sampleEnv
      (loadDataFromDirectory sampleEnv (initialWidget String) "/other/ev1")
      "/other/ev2").shakeMapContainer.length = (initialWidget String).shakeMapContainer.length + 2 ∧
    getNumShakeMapsLoaded (loadDataFromDirectory sampleEnv
      (loadDataFromDirectory sampleEnv (initialWidget String) "/other/ev1") "/other/ev2") =
      getNumShakeMapsLoaded
        (loadDataFromDirectory sampleEnv (initialWidget String) "/other/ev1") + 1 :=
  have h := loadDataFromDirectory_two_names sampleEnv (initialWidget String)
    "/other/ev1" "/other/ev2" (by decide) (by decide) (by decide) (by decide) (by decide)
    (by decide) (by decide) (by decide) (by decide) (fun _ _ => rfl)
  ⟨by decide, h.2.2.1, h.2.2.2.2⟩

/-! ## `copyFiles` -/

/-- C8, evaluated on one station: for the ShakeMap `ev1` of `sampleLoaded`, whose station
has latitude 34.05 and longitude -118.25, `copyFiles` returns true and saves as
`EventGrid.csv` the header `GP_file, Latitude, Longitude` followed by the row
`Site_0.csv, -118.25, 34.05`: the longitude stands under `Latitude` and the latitude
under `Longitude`. -/
theorem copyFiles_eventGrid_columns_swapped :
    (containerValue sampleLoaded.shakeMapContainer "ev1").map
      (fun sm => sm.stationList.map (fun st => (st.latitude, st.longitude))) =
      some [(34.05, -118.25)] ∧
    (copyFiles sampleCopyEnv sampleLoaded "/out").map (fun r => (r.ret, r.saves)) =
      some (true,
        [{ path := "/out/Site_0.csv", data := [["PGA"], ["0.12"]], result := 0 },
         { path := "/out/EventGrid.csv"
           data := [["GP_file", "Latitude", "Longitude"], ["Site_0.csv", "-118.25", "34.05"]]
           result := 0 }]) :=
  ⟨rfl, by with_unfolding_all decide⟩

/-- C9 as stated fails: with the stations `sampleStationsNoPGA` the PGA of station 1
converts (to 25), but station 0 carries no PGA, so `copyFiles` returns false before
reaching station 1 and saves no file at all. -/
theorem copyFiles_stops_at_first_failure :
    sampleStationsNoPGA.map (stationIM sampleCopyEnv) = [none, some 25] ∧
    (copyFiles sampleCopyEnv (sampleSelected sampleStationsNoPGA) "/out").map
      (fun r => (r.ret, r.saves)) = some (false, []) := by
  with_unfolding_all decide

/-- C9 (amended): for every station `k` of the selected ShakeMap such that the passes of
all stations before `k` go through (their PGA converts and their save returns 0) and the
PGA of station `k` converts to `v`, `copyFiles` calls `saveCSVFile` for the path
`destDir + separator + "Site_<k>.csv"` with the table of exactly the two rows `["PGA"]` and
`[number (v / 100)]`, where `v / 100` is the value in g: its hundredfold is the value `v`
in percent g. -/
theorem copyFiles_saves_station (cenv : CopyEnv) (w : Widget ℚ) (destDir : String)
    (item : ListItem) (sm : ShakeMap ℚ) (k : Nat) (hk : k < sm.stationList.length) (v : ℚ)
    (hcur : w.listWidget.getCurrentItem = some item)
    (hsm : containerValue w.shakeMapContainer item.name = some sm)
    (hprev : ∀ (j : Nat) (hj : j < sm.stationList.length), j < k →
      ∃ u, stationIM cenv sm.stationList[j] = some u ∧
        (cenv.saveCSVFile (stationData cenv u) (pathToStationFile cenv destDir j)).1 = 0)
    (hv : stationIM cenv sm.stationList[k] = some v) :
    ∃ r, copyFiles cenv w destDir = some r ∧
      ∃ c ∈ r.saves,
        c.path = destDir ++ cenv.separator ++ ("Site_" ++ toString k ++ ".csv") ∧
        c.data = [["PGA"], [cenv.number (v / 100)]] ∧
        v / 100 * 100 = v := by
  have hm : stationCall cenv destDir k v ∈
      (stationLoop cenv destDir 0 sm.stationList (copyStart w)).state.saves := by
    have := stationLoop_saves_mem cenv destDir sm.stationList 0 (copyStart w) k hk v
      (fun j hj hjk => by
        rw [Nat.zero_add]
        exact (stationPasses_iff cenv destDir j _).mpr (hprev j hj hjk))
      hv
    simpa using this
  have hne : sm.stationList.isEmpty = false := by
    cases hl : sm.stationList with
    | nil => rw [hl] at hk; exact absurd hk (Nat.not_lt_zero _)
    | cons a l => rfl
  refine ⟨finishCopy cenv destDir (stationLoop cenv destDir 0 sm.stationList (copyStart w)),
    by simp [copyFiles, hcur, hsm, hne], stationCall cenv destDir k v, ?_, rfl, rfl,
    by norm_num⟩
  cases hsl : stationLoop cenv destDir 0 sm.stationList (copyStart w) with
  | exit st =>
    rw [hsl] at hm
    exact hm
  | next st =>
    rw [hsl] at hm
    simp only [Step.state] at hm
    simp only [finishCopy]
    split
    · exact List.mem_append_left _ hm
    · exact List.mem_append_left _ hm

/-- Witness of C9 (amended): station 1 of `sampleStations`, whose PGA is 25 percent g; the
value saved is 25 / 100, written `0.25`. -/
theorem copyFiles_saves_station_witness :
    stationIM sampleCopyEnv (sampleShakeMap sampleStations).stationList[1] = some 25 ∧
    (∃ r, copyFiles sampleCopyEnv (sampleSelected sampleStations) "/out" = some r ∧
      ∃ c ∈ r.saves,
        c.path = "/out" ++ sampleCopyEnv.separator ++ ("Site_" ++ toString 1 ++ ".csv") ∧
        c.data = [["PGA"], [sampleCopyEnv.number (25 / 100)]] ∧
        (25 : ℚ) / 100 * 100 = 25) ∧
    sampleCopyEnv.number (25 / 100) = "0.25" :=
  ⟨by with_unfolding_all decide,
   copyFiles_saves_station sampleCopyEnv (sampleSelected sampleStations) "/out"
     { itemID := 1, name := "ev" } (sampleShakeMap sampleStations) 1 (by decide) 25
     (by decide) rfl
     (fun j _ hjk => by
       obtain rfl : j = 0 := by omega
       exact ⟨12, by with_unfolding_all rfl, rfl⟩)
     (by with_unfolding_all decide),
   by with_unfolding_all decide⟩

/-- C10: with a current item in the list, `copyFiles` returns, and it returns true exactly
when the item names a ShakeMap of the container whose station list is not empty, the PGA
of every station converts, every save of a station file returns 0 and the save of the
event grid returns 0.  When the ShakeMap is missing or its station list is empty it
returns false and saves nothing.  When it returns false it emits nothing and no save of
the event file has returned 0; when it returns true the save of the event file returned 0
and `outputDirectoryPathChanged` is emitted. -/
theorem copyFiles_true_iff (cenv : CopyEnv) (w : Widget ℚ) (destDir : String)
    (item : ListItem) (hcur : w.listWidget.getCurrentItem = some item) :
    ∃ r, copyFiles cenv w destDir = some r ∧
      (r.ret = true ↔
        ∃ sm, containerValue w.shakeMapContainer item.name = some sm ∧
          sm.stationList ≠ [] ∧
          (∀ (k : Nat) (hk : k < sm.stationList.length),
            ∃ v, stationIM cenv sm.stationList[k] = some v ∧
              (cenv.saveCSVFile (stationData cenv v) (pathToStationFile cenv destDir k)).1 = 0) ∧
          (cenv.saveCSVFile (headerRow :: stationRows cenv 0 sm.stationList)
            (pathToEventFile cenv destDir)).1 = 0) ∧
      ((containerValue w.shakeMapContainer item.name = none ∨
          ∃ sm, containerValue w.shakeMapContainer item.name = some sm ∧ sm.stationList = []) →
        r.ret = false ∧ r.saves = []) ∧
      (r.ret = false →
        r.widget.emitted = w.emitted ∧
        ∀ c ∈ r.saves, c.path = pathToEventFile cenv destDir → c.result ≠ 0) ∧
      (r.ret = true →
        r.widget.emitted = w.emitted ++
          [Signal.outputDirectoryPathChanged destDir (pathToEventFile cenv destDir)] ∧
        ∃ sm, containerValue w.shakeMapContainer item.name = some sm ∧
          ∃ c ∈ r.saves, c.path = pathToEventFile cenv destDir ∧
            c.data = headerRow :: stationRows cenv 0 sm.stationList ∧ c.result = 0) := by
  have hpassiff : ∀ stations : List (Station ℚ),
      stationsPass cenv destDir 0 stations = true ↔
        ∀ (k : Nat) (hk : k < stations.length),
          ∃ v, stationIM cenv stations[k] = some v ∧
            (cenv.saveCSVFile (stationData cenv v) (pathToStationFile cenv destDir k)).1 = 0 := by
    intro stations
    rw [stationsPass_iff]
    constructor
    · intro h k hk
      have := h k hk
      rw [Nat.zero_add] at this
      exact (stationPasses_iff cenv destDir k _).mp this
    · intro h k hk
      rw [Nat.zero_add]
      exact (stationPasses_iff cenv destDir k _).mpr (h k hk)
  cases hval : containerValue w.shakeMapContainer item.name with
  | none =>
    refine ⟨_, by simp only [copyFiles, hcur, hval]; rfl, ?_, ?_, ?_, ?_⟩
    · simp
    · intro _; exact ⟨rfl, rfl⟩
    · intro _; exact ⟨rfl, by simp⟩
    · intro h; simp at h
  | some sm =>
    cases hl : sm.stationList with
    | nil =>
      refine ⟨_, by simp only [copyFiles, hcur, hval, hl, List.isEmpty_nil, if_true]; rfl,
        ?_, ?_, ?_, ?_⟩
      · simp [hl]
      · intro _; exact ⟨rfl, rfl⟩
      · intro _; exact ⟨rfl, by simp⟩
      · intro h; simp at h
    | cons s rest =>
      have hfin := finishCopy_stationLoop_spec cenv w destDir (s :: rest)
      obtain ⟨hiff, hfalse, htrue⟩ := hfin
      refine ⟨finishCopy cenv destDir (stationLoop cenv destDir 0 (s :: rest) (copyStart w)),
        by simp [copyFiles, hcur, hval, hl], ?_, ?_, hfalse, ?_⟩
      · rw [hiff, hpassiff]
        constructor
        · rintro ⟨h1, h2⟩
          exact ⟨sm, rfl, by simp [hl], by simpa [hl] using h1, by simpa [hl] using h2⟩
        · rintro ⟨sm2, hsm2, -, h1, h2⟩
          cases hsm2
          exact ⟨by simpa [hl] using h1, by simpa [hl] using h2⟩
      · rintro (h | ⟨sm2, hsm2, hnil⟩)
        · cases h
        · cases hsm2
          rw [hl] at hnil
          cases hnil
      · intro h
        obtain ⟨hem, c, hc, hp, hd, hr⟩ := htrue h
        exact ⟨hem, sm, rfl, c, hc, hp, by rw [hl]; exact hd, hr⟩

/-- Witness of C10: the widget `sampleSelected sampleStations`, whose current item is `ev`. -/
theorem copyFiles_true_iff_witness :
    (sampleSelected sampleStations).listWidget.getCurrentItem = some { itemID := 1, name := "ev" } ∧
    ∃ r, copyFiles sampleCopyEnv (sampleSelected sampleStations) "/out" = some r ∧
      (r.ret = false →
        r.widget.emitted = (sampleSelected sampleStations).emitted ∧
        ∀ c ∈ r.saves, c.path = pathToEventFile sampleCopyEnv "/out" → c.result ≠ 0) :=
  ⟨rfl,
   (copyFiles_true_iff sampleCopyEnv (sampleSelected sampleStations) "/out"
      { itemID := 1, name := "ev" } rfl).elim
     (fun r hr => ⟨r, hr.1, hr.2.2.2.1⟩)⟩

/-! ## `loadShakeMapData`: the scan of the sub-directories -/

/-- C11: when `pathToShakeMapDirectory` names an existing directory other than the current
working directory, `loadShakeMapData` calls `loadDataFromDirectory` on the paths the
recursive scan of that directory yields, once each and in order, then emits
`loadingComplete(true)` (and nothing else) and returns 0, whatever the calls did. -/
theorem loadShakeMapData_existing_directory {D : Type} (env : Env D) (w : Widget D)
    (hne : w.pathToShakeMapDirectory ≠ "")
    (hcwd : w.pathToShakeMapDirectory ≠ env.currentPath)
    (hex : env.fileInfoExists w.pathToShakeMapDirectory = true) :
    (loadShakeMapData env w).loadedDirectories =
      env.subdirectories (env.absoluteFilePath w.pathToShakeMapDirectory) ∧
    (loadShakeMapData env w).widget =
      { loadDirectories env w
          (env.subdirectories (env.absoluteFilePath w.pathToShakeMapDirectory)) with
        emitted := (loadDirectories env w
          (env.subdirectories (env.absoluteFilePath w.pathToShakeMapDirectory))).emitted ++
            [Signal.loadingComplete true] } ∧
    (loadShakeMapData env w).widget.emitted = w.emitted ++ [Signal.loadingComplete true] ∧
    (loadShakeMapData env w).ret = 0 := by
  have h : (loadShakeMapData env w) =
      { ret := 0
        widget :=
          { loadDirectories env w
              (env.subdirectories (env.absoluteFilePath w.pathToShakeMapDirectory)) with
            emitted := (loadDirectories env w
              (env.subdirectories (env.absoluteFilePath w.pathToShakeMapDirectory))).emitted ++
                [Signal.loadingComplete true] }
        loadedDirectories :=
          env.subdirectories (env.absoluteFilePath w.pathToShakeMapDirectory) } := by
    simp [loadShakeMapData, hne, hcwd, hex]
  rw [h]
  refine ⟨rfl, rfl, ?_, rfl⟩
  simp only [loadDirectories_emitted]

/-- Witness of C11: the folder `/maps` of `sampleFailingEnv`; neither sub-directory adds a
ShakeMap, both errors are shown, and the call still returns 0. -/
theorem loadShakeMapData_existing_directory_witness :
    (loadShakeMapData sampleFailingEnv
      { initialWidget String with pathToShakeMapDirectory := "/maps" }).loadedDirectories =
      ["/maps/bad", "/maps/empty"] ∧
    (loadShakeMapData sampleFailingEnv
      { initialWidget String with pathToShakeMapDirectory := "/maps" }).widget.emitted =
      [Signal.loadingComplete true] ∧
    (loadShakeMapData sampleFailingEnv
      { initialWidget String with pathToShakeMapDirectory := "/maps" }).ret = 0 ∧
    (loadShakeMapData sampleFailingEnv
      { initialWidget String with pathToShakeMapDirectory := "/maps" }).widget.shakeMapContainer.length
      = 0 ∧
    (loadShakeMapData sampleFailingEnv
      { initialWidget String with pathToShakeMapDirectory := "/maps" }).widget.errorMessages =
      ["Cannot read the grid file", "The directory /maps/empty is empty."] :=
  have h := loadShakeMapData_existing_directory sampleFailingEnv
    { initialWidget String with pathToShakeMapDirectory := "/maps" }
    (by decide) (by decide) (by decide)
  ⟨h.1, h.2.2.1, h.2.2.2, by decide, by decide⟩

end ShakeMapWidget
